import Mathlib

/-!
Verification development for a campus ride-sharing backend.

The backend is a collection of HTTP endpoints over a document store.  Each
collection is modelled as a `List` of documents; each endpoint is a function
from the store (plus the authenticated user and the nondeterministic inputs:
current time, generated identifiers, generated PINs) to `Except Nat DB`,
where the error value is the HTTP status code of the raised exception.  In
every handler all raises happen before any write, so an error result leaves
the store unchanged, which the `Except` signature reflects.

Identifier strings (`str(ObjectId)`) are modelled as `Nat`; identifier parse
failures (the `Invalid ... ID` 400 branches) are therefore out of scope.
Float-valued response fields (cost splits, coordinates) do not influence any
control flow modelled here; coordinates are carried as `Option Int` and costs
as `Nat`.
-/

namespace DTL

/-! ### Document-store primitives

`find_one` is `List.find?` (first match), `update_one` updates the first
match, `delete_one` is `List.eraseP`, `update_many` / `delete_many` touch
every match, `insert_one` appends, `count_documents` is `List.countP`. -/

def updateFirstBy (p : α → Bool) (f : α → α) : List α → List α
  | [] => []
  | x :: xs => if p x then f x :: xs else x :: updateFirstBy p f xs

def updateManyBy (p : α → Bool) (f : α → α) (l : List α) : List α :=
  l.map fun x => if p x then f x else x

def deleteManyBy (p : α → Bool) (l : List α) : List α :=
  l.filter fun x => !p x

/-! ### String helpers mirroring the Python string operations -/

/-- Models `str.lower` (the source only handles basic-latin emails). -/
def strLower (s : String) : String :=
  ⟨s.data.map Char.toLower⟩

/-- Boolean contiguous-sublist test. -/
def listIsInfixOf [BEq α] (needle : List α) : List α → Bool
  | [] => needle.isEmpty
  | x :: xs => needle.isPrefixOf (x :: xs) || listIsInfixOf needle xs

/-- Models `a in b` on Python strings (substring test). -/
def strContains (hay needle : String) : Bool :=
  listIsInfixOf needle.data hay.data

/-- Models `s.endswith(suffix)`. -/
def strEndsWith (s suffix : String) : Bool :=
  suffix.data.isSuffixOf s.data

/-- Models `s.split()` : split on whitespace, dropping empty words. -/
def strWords (s : String) : List String :=
  ((s.data.foldr
      (fun c acc =>
        if c.isWhitespace then [] :: acc
        else match acc with
          | [] => [[c]]
          | w :: ws => (c :: w) :: ws)
      ([] : List (List Char))).filter (fun w => !w.isEmpty)).map
    fun w => ⟨w⟩

/-! ### Calendar arithmetic for `datetime.strptime` / subtraction

`create_ride_request` compares the ride datetime with the current time.  We
mirror `datetime.strptime(s, "%Y-%m-%d %H:%M")` by strict field validation
(a `ValueError` in the source is a `none` here) and `toOrdinal` mirrors
`date.toordinal`, so datetime subtraction becomes integer minutes.  The
clock is modelled at minute resolution. -/

def isLeapYear (y : Nat) : Bool :=
  y % 4 == 0 && (y % 100 != 0 || y % 400 == 0)

def daysInMonth (y m : Nat) : Nat :=
  if m == 2 then (if isLeapYear y then 29 else 28)
  else if m == 4 || m == 6 || m == 9 || m == 11 then 30
  else 31

def daysBeforeMonth (y m : Nat) : Nat :=
  (List.range m).foldl (fun acc i => if i == 0 then acc else acc + daysInMonth y i) 0

def toOrdinal (y m d : Nat) : Nat :=
  (y - 1) * 365 + (y - 1) / 4 - (y - 1) / 100 + (y - 1) / 400 + daysBeforeMonth y m + d

/-- `str.split(sep)` for a one-character separator, over the raw characters
(Lean string primitives based on byte positions do not evaluate inside the
kernel, so the split is done on `List Char`). -/
def splitOnChar (sep : Char) (l : List Char) : List (List Char) :=
  l.foldr (fun c acc =>
    match acc with
    | [] => [[]]
    | w :: ws => if c == sep then [] :: w :: ws else (c :: w) :: ws) [[]]

/-- A digits-only natural parse (`int()` on canonical input). -/
def parseNatStrict (l : List Char) : Option Nat :=
  if l.length > 0 && l.all Char.isDigit then
    some (l.foldl (fun n c => n * 10 + (c.toNat - 48)) 0)
  else none

/-- `int()` on canonical input: optional leading minus, then digits. -/
def intFromChars? : List Char → Option Int
  | [] => none
  | c :: rest =>
    if c = Char.ofNat 45 then (parseNatStrict rest).map (fun n => -(n : Int))
    else (parseNatStrict (c :: rest)).map (fun n => (n : Int))

/-- Minutes represented by `date` `time` under format `%Y-%m-%d %H:%M`;
`none` models the `ValueError` branch. -/
def parseRideDateTimeMins (date time : String) : Option Int :=
  match splitOnChar (Char.ofNat 45) date.data, splitOnChar (Char.ofNat 58) time.data with
  | [ys, ms, ds], [hs, mins] =>
    match parseNatStrict ys, parseNatStrict ms, parseNatStrict ds,
          parseNatStrict hs, parseNatStrict mins with
    | some y, some m, some d, some h, some mi =>
      if 1 ≤ m && m ≤ 12 && 1 ≤ d && d ≤ daysInMonth y m && h ≤ 23 && mi ≤ 59 then
        some ((toOrdinal y m d : Int) * 1440 + (h : Int) * 60 + (mi : Int))
      else none
    | _, _, _, _, _ => none
  | _, _ => none

/-! ### Documents -/

structure User where
  id : Nat
  email : String
  password : String
  name : String
  role : String
  is_admin : Bool := false
  verification_status : String := "unverified"
  branch : Option String := none
  academic_year : Option String := none
  is_active : Bool := true
  created_at : String := ""
  deriving Repr, DecidableEq

structure Ride where
  id : Nat
  driver_id : Nat
  source : String
  destination : String
  date : String
  time : String
  available_seats : Nat
  estimated_cost : Nat
  status : String
  pickup_point : Option String := none
  event_tag : Option String := none
  is_recurring : Bool := false
  recurrence_pattern : Option String := none
  parent_ride_id : Option Nat := none
  created_at : String := ""
  deriving Repr, DecidableEq

structure RideRequest where
  id : Nat
  ride_id : Nat
  rider_id : Nat
  status : String
  ride_pin : Option String := none
  is_urgent : Bool := false
  accepted_at : Option String := none
  ride_started_at : Option String := none
  reached_safely_at : Option String := none
  completed_at : Option String := none
  created_at : String := ""
  deriving Repr, DecidableEq

structure ChatMessage where
  id : Nat
  ride_request_id : Nat
  ride_id : Nat
  sender_id : Nat
  message : String
  created_at : String := ""
  deriving Repr, DecidableEq

structure Rating where
  id : Nat
  ride_request_id : Nat
  ride_id : Nat
  rater_id : Nat
  rater_role : String
  rated_user_id : Nat
  rating : Nat
  feedback : Option String := none
  created_at : String := ""
  deriving Repr, DecidableEq

structure SOSEvent where
  id : Nat
  ride_request_id : Nat
  ride_id : Nat
  triggered_by : Nat
  triggered_by_role : String
  latitude : Option Int := none
  longitude : Option Int := none
  message : Option String := none
  status : String
  admin_notes : Option String := none
  reviewed_at : Option String := none
  reviewed_by : Option Nat := none
  resolved_at : Option String := none
  resolved_by : Option Nat := none
  created_at : String := ""
  deriving Repr, DecidableEq

structure Report where
  id : Nat
  reporter_id : Nat
  reported_user_id : Option Nat := none
  ride_id : Option Nat := none
  category : String
  description : String
  status : String
  created_at : String := ""
  deriving Repr, DecidableEq

structure AuditLogEntry where
  admin_id : Nat
  admin_name : String
  action_type : String
  target_type : String
  target_id : Nat
  timestamp : String := ""
  deriving Repr, DecidableEq

/-- The document store: one list per collection. -/
structure DB where
  users : List User
  rides : List Ride
  rideRequests : List RideRequest
  chatMessages : List ChatMessage
  ratings : List Rating
  sosEvents : List SOSEvent
  reports : List Report
  auditLogs : List AuditLogEntry
  deriving Repr, DecidableEq

/-- `log_admin_action` from `utils.py`. -/
def log_admin_action (db : DB) (admin_id : Nat) (admin_name action_type target_type : String)
    (target_id : Nat) (now : String) : DB :=
  { db with auditLogs := db.auditLogs ++
      [{ admin_id := admin_id, admin_name := admin_name, action_type := action_type,
         target_type := target_type, target_id := target_id, timestamp := now }] }

/-! ### Observations on the store used by the claims -/

/-- Status of the ride request a `find_one` on the given id returns. -/
def reqStatus (db : DB) (r : Nat) : Option String :=
  (db.rideRequests.find? fun x => x.id == r).map (·.status)

/-- Stored PIN of the ride request a `find_one` on the given id returns. -/
def reqRidePin (db : DB) (r : Nat) : Option (Option String) :=
  (db.rideRequests.find? fun x => x.id == r).map (·.ride_pin)

/-- Number of requests in a collection counted as occupying a seat. -/
def countAcceptedOngoingIn (reqs : List RideRequest) (ride_id : Nat) : Nat :=
  reqs.countP fun x =>
    x.ride_id == ride_id && (x.status == "accepted" || x.status == "ongoing")

/-- Number of requests of a ride counted as occupying a seat. -/
def countAcceptedOngoing (db : DB) (ride_id : Nat) : Nat :=
  countAcceptedOngoingIn db.rideRequests ride_id

/-! ### Endpoints (`auth.py`, `ride_requests.py`, `rides.py`, `ratings.py`,
`chat.py`, `sos.py`, `admin.py`)

Each function takes the authenticated user (`get_current_user` has already
succeeded) and explicit parameters for the nondeterministic inputs of the
handler: the wall clock (`nowMins` at minute resolution, `nowIso` for the
stored timestamp strings), the generated document id `newId`, and the
generated PIN.  Leading `.error 422` guards model the pydantic field
validation of the request model; FastAPI rejects such bodies before the
handler runs. -/

def ALLOWED_EMAIL_DOMAIN : String := "@rvce.edu.in"

/-- `utils.validate_email_domain`. -/
def validate_email_domain (email : String) : Bool :=
  strEndsWith (strLower email) ALLOWED_EMAIL_DOMAIN

/-- `POST /api/auth/signup` (`auth.py`).  `get_password_hash` (bcrypt) is
passed as an oracle. -/
def signup (db : DB) (email password name role : String)
    (get_password_hash : String → String) (nowIso : String) (newId : Nat) : Except Nat DB :=
  if role ≠ "rider" ∧ role ≠ "driver" then .error 422
  else if ¬ validate_email_domain email then .error 400
  else match db.users.find? (fun x => x.email == strLower email) with
  | some _ => .error 400
  | none => .ok { db with users := db.users ++
      [{ id := newId, email := strLower email, password := get_password_hash password,
         name := name, role := role, is_admin := false,
         verification_status := "unverified", created_at := nowIso }] }

/-- `POST /api/ride-requests` (`ride_requests.py`). -/
def create_ride_request (db : DB) (ride_id : Nat) (is_urgent : Bool)
    (u : User) (nowMins : Int) (nowIso : String) (newId : Nat) : Except Nat DB :=
  if u.role ≠ "rider" then .error 403
  else if u.verification_status ≠ "verified" then .error 403
  else match db.rides.find? (fun r => r.id == ride_id) with
  | none => .error 404
  | some ride =>
    if ride.status ≠ "active" then .error 400
    else if is_urgent ∧
        (match parseRideDateTimeMins ride.date ride.time with
         | some rideMins => decide (rideMins - nowMins > 60 ∨ rideMins - nowMins < -10)
         | none => false) = true then .error 400
    else match db.rideRequests.find?
        (fun x => x.ride_id == ride_id && x.rider_id == u.id) with
    | some _ => .error 400
    | none =>
      if ride.available_seats ≤ countAcceptedOngoing db ride_id then .error 400
      else .ok { db with rideRequests := db.rideRequests ++
          [{ id := newId, ride_id := ride_id, rider_id := u.id, status := "requested",
             ride_pin := none, is_urgent := is_urgent, created_at := nowIso }] }

/-- `PUT /api/ride-requests/{request_id}` (`ride_requests.py`): driver accepts
or rejects.  `pin` is the value `generate_ride_pin()` returned. -/
def handle_ride_request (db : DB) (request_id : Nat) (action : String) (u : User)
    (pin : String) (nowIso : String) : Except Nat DB :=
  if action ≠ "accept" ∧ action ≠ "reject" then .error 422
  else match db.rideRequests.find? (fun x => x.id == request_id) with
  | none => .error 404
  | some ride_request =>
    match db.rides.find? (fun r => r.id == ride_request.ride_id) with
    | none => .error 404
    | some ride =>
      if ride.driver_id ≠ u.id then .error 403
      else if ride_request.status ≠ "requested" then .error 400
      else if action = "accept" ∧
          ride.available_seats ≤ countAcceptedOngoing db ride_request.ride_id then .error 400
      else .ok { db with rideRequests :=
        (updateFirstBy (fun x => x.id == request_id)
          (fun x =>
            if action = "accept" then
              { x with
                status := "accepted", ride_pin := some pin,
                accepted_at := some nowIso }
            else { x with status := "rejected" })
          db.rideRequests) }

/-- `POST /api/ride-requests/{request_id}/start` (`ride_requests.py`). -/
def start_ride (db : DB) (request_id : Nat) (pin : String) (u : User)
    (nowIso : String) : Except Nat DB :=
  if pin.length ≠ 4 then .error 422
  else match db.rideRequests.find? (fun x => x.id == request_id) with
  | none => .error 404
  | some ride_request =>
    match db.rides.find? (fun r => r.id == ride_request.ride_id) with
    | none => .error 404
    | some ride =>
      if ride.driver_id ≠ u.id then .error 403
      else if ride_request.status ≠ "accepted" then .error 400
      else if ride_request.ride_pin ≠ some pin then .error 400
      else .ok { db with rideRequests :=
        (updateFirstBy (fun x => x.id == request_id)
          (fun x => { x with status := "ongoing", ride_started_at := some nowIso })
          db.rideRequests) }

/-- The ride-request collection after `mark_reached_safely` wrote
`status = "completed"` on the target request. -/
def mrsUpdatedRequests (db : DB) (request_id : Nat) (nowIso : String) : List RideRequest :=
  updateFirstBy (fun x => x.id == request_id)
    (fun x => { x with
                status := "completed", reached_safely_at := some nowIso,
                completed_at := some nowIso })
    db.rideRequests

/-- `POST /api/ride-requests/{request_id}/reached-safely` (`ride_requests.py`).
The remaining-seats count runs against the store after the request update. -/
def mark_reached_safely (db : DB) (request_id : Nat) (u : User)
    (nowIso : String) : Except Nat DB :=
  match db.rideRequests.find? (fun x => x.id == request_id) with
  | none => .error 404
  | some ride_request =>
    if ride_request.rider_id ≠ u.id then .error 403
    else if ride_request.status ≠ "ongoing" then .error 400
    else if countAcceptedOngoingIn (mrsUpdatedRequests db request_id nowIso)
        ride_request.ride_id = 0 then
      .ok { db with
        rideRequests := mrsUpdatedRequests db request_id nowIso,
        rides := (updateFirstBy (fun r => r.id == ride_request.ride_id)
          (fun r => { r with status := "completed" }) db.rides) }
    else .ok { db with rideRequests := mrsUpdatedRequests db request_id nowIso }

/-- `PUT /api/rides/{ride_id}/complete` (`rides.py`). -/
def complete_ride (db : DB) (ride_id : Nat) (u : User) (nowIso : String) : Except Nat DB :=
  match db.rides.find? (fun r => r.id == ride_id) with
  | none => .error 404
  | some existing_ride =>
    if existing_ride.driver_id ≠ u.id then .error 403
    else .ok { db with
      rides := (updateFirstBy (fun r => r.id == ride_id)
        (fun r => { r with status := "completed" }) db.rides),
      rideRequests := (updateManyBy
        (fun x => x.ride_id == ride_id && (x.status == "accepted" || x.status == "ongoing"))
        (fun x => { x with
                    status := "completed", completed_at := some nowIso })
        db.rideRequests) }

/-- `DELETE /api/rides/{ride_id}` (`rides.py`). -/
def delete_ride (db : DB) (ride_id : Nat) (u : User) : Except Nat DB :=
  match db.rides.find? (fun r => r.id == ride_id) with
  | none => .error 404
  | some existing_ride =>
    if existing_ride.driver_id ≠ u.id ∧ ¬ u.is_admin then .error 403
    else .ok { db with
      rides := db.rides.eraseP (fun r => r.id == ride_id),
      rideRequests := deleteManyBy (fun x => x.ride_id == ride_id) db.rideRequests,
      chatMessages := deleteManyBy (fun m => m.ride_id == ride_id) db.chatMessages }

/-- Ids of the rides the victim drove (`ride_ids` in `admin_delete_user`). -/
def victimRideIds (db : DB) (user_id : Nat) : List Nat :=
  (db.rides.filter (fun r => r.driver_id == user_id)).map (·.id)

/-- Ride requests left after the `if ride_ids:` guarded `delete_many` on the
victim rides. -/
def reqsAfterVictimRideDelete (db : DB) (user_id : Nat) : List RideRequest :=
  if (victimRideIds db user_id).isEmpty then db.rideRequests
  else deleteManyBy (fun x => (victimRideIds db user_id).contains x.ride_id) db.rideRequests

/-- Chat messages left after the `if ride_ids:` guarded `delete_many`. -/
def chatAfterVictimRideDelete (db : DB) (user_id : Nat) : List ChatMessage :=
  if (victimRideIds db user_id).isEmpty then db.chatMessages
  else deleteManyBy (fun m => (victimRideIds db user_id).contains m.ride_id) db.chatMessages

/-- `user_request_ids` in `admin_delete_user`: collected only after the
requests attached to the victim rides were already deleted. -/
def victimRequestIds (db : DB) (user_id : Nat) : List Nat :=
  ((reqsAfterVictimRideDelete db user_id).filter (fun x => x.rider_id == user_id)).map (·.id)

/-- Chat messages left after the `if user_request_ids:` guarded `delete_many`. -/
def chatAfterVictimRequestDelete (db : DB) (user_id : Nat) : List ChatMessage :=
  if (victimRequestIds db user_id).isEmpty then chatAfterVictimRideDelete db user_id
  else deleteManyBy (fun m => (victimRequestIds db user_id).contains m.ride_request_id)
    (chatAfterVictimRideDelete db user_id)

/-- `DELETE /api/admin/users/{user_id}` (`admin.py`).  The source computes the
victim ride ids first, deletes requests and chat for those rides, only then
collects the victim rider requests (on the already-shrunk collection), and
finishes with per-collection `delete_many` calls and the audit log entry.
The helper definitions above record each intermediate collection; deletions
on distinct collections commute, so the final store is assembled in one
record update. -/
def admin_delete_user (db : DB) (user_id : Nat) (u : User) (nowIso : String) : Except Nat DB :=
  if ¬ u.is_admin then .error 403
  else match db.users.find? (fun x => x.id == user_id) with
  | none => .error 404
  | some target =>
    if target.is_admin then .error 400
    else .ok (log_admin_action
      { db with
        rideRequests := (deleteManyBy (fun x => x.rider_id == user_id)
          (reqsAfterVictimRideDelete db user_id)),
        rides := deleteManyBy (fun r => r.driver_id == user_id) db.rides,
        ratings := (deleteManyBy
          (fun t => t.rater_id == user_id || t.rated_user_id == user_id) db.ratings),
        sosEvents := deleteManyBy (fun s => s.triggered_by == user_id) db.sosEvents,
        reports := (deleteManyBy
          (fun p => p.reporter_id == user_id || p.reported_user_id == some user_id)
          db.reports),
        chatMessages := (deleteManyBy (fun m => m.sender_id == user_id)
          (chatAfterVictimRequestDelete db user_id)),
        users := db.users.eraseP (fun x => x.id == user_id) }
      u.id u.name "user_deleted" "user" user_id nowIso)

/-- Who rates whom in `submit_rating`: the rider rates the driver, the
driver rates the rider, anyone else is rejected. -/
def rating_target (u : User) (rr : RideRequest) (rd : Ride) : Option (Nat × String) :=
  if u.id = rr.rider_id then some (rd.driver_id, "rider")
  else if u.id = rd.driver_id then some (rr.rider_id, "driver")
  else none

/-- `POST /api/ratings` (`ratings.py`). -/
def submit_rating (db : DB) (ride_request_id : Nat) (rating : Nat) (feedback : Option String)
    (u : User) (nowIso : String) (newId : Nat) : Except Nat DB :=
  if rating < 1 ∨ 5 < rating then .error 422
  else match db.rideRequests.find? (fun x => x.id == ride_request_id) with
  | none => .error 404
  | some ride_request =>
    if ride_request.status ≠ "completed" then .error 400
    else match db.rides.find? (fun r => r.id == ride_request.ride_id) with
    | none => .error 404
    | some ride =>
      match rating_target u ride_request ride with
      | none => .error 403
      | some target =>
        match db.ratings.find?
            (fun t => t.ride_request_id == ride_request_id && t.rater_id == u.id) with
        | some _ => .error 400
        | none => .ok { db with ratings := db.ratings ++
            [{ id := newId, ride_request_id := ride_request_id,
               ride_id := ride_request.ride_id, rater_id := u.id, rater_role := target.2,
               rated_user_id := target.1, rating := rating, feedback := feedback,
               created_at := nowIso }] }

/-- `POST /api/chat/{request_id}/messages` (`chat.py`). -/
def send_chat_message (db : DB) (request_id : Nat) (message : String) (u : User)
    (nowIso : String) (newId : Nat) : Except Nat DB :=
  if message.length < 1 ∨ 1000 < message.length then .error 422
  else match db.rideRequests.find? (fun x => x.id == request_id) with
  | none => .error 404
  | some ride_request =>
    match db.rides.find? (fun r => r.id == ride_request.ride_id) with
    | none => .error 404
    | some ride =>
      if ¬ (ride_request.rider_id = u.id ∨ ride.driver_id = u.id) then .error 403
      else if ¬ (ride_request.status = "accepted" ∨ ride_request.status = "ongoing") then
        .error 403
      else .ok { db with chatMessages := db.chatMessages ++
          [{ id := newId, ride_request_id := request_id, ride_id := ride_request.ride_id,
             sender_id := u.id, message := message, created_at := nowIso }] }

/-- `POST /api/sos` (`sos.py`). -/
def trigger_sos (db : DB) (ride_request_id : Nat) (latitude longitude : Option Int)
    (message : Option String) (u : User) (nowIso : String) (newId : Nat) : Except Nat DB :=
  match db.rideRequests.find? (fun x => x.id == ride_request_id) with
  | none => .error 404
  | some ride_request =>
    match db.rides.find? (fun r => r.id == ride_request.ride_id) with
    | none => .error 404
    | some ride =>
      if ¬ (ride_request.rider_id = u.id ∨ ride.driver_id = u.id) then .error 403
      else if ride_request.status ≠ "ongoing" then .error 400
      else match db.sosEvents.find? (fun s =>
          s.ride_request_id == ride_request_id &&
          (s.status == "active" || s.status == "reviewed")) with
      | some _ => .error 400
      | none => .ok { db with sosEvents := db.sosEvents ++
          [{ id := newId, ride_request_id := ride_request_id,
             ride_id := ride_request.ride_id, triggered_by := u.id,
             triggered_by_role := u.role, latitude := latitude, longitude := longitude,
             message := message, status := "active", created_at := nowIso }] }

/-- `PUT /api/admin/sos/{sos_id}` (`sos.py`).  `action.notes or sos.admin_notes`
keeps the old notes when the new ones are falsy (absent or empty). -/
def admin_update_sos (db : DB) (sos_id : Nat) (action : String) (notes : Option String)
    (u : User) (nowIso : String) : Except Nat DB :=
  if action ≠ "review" ∧ action ≠ "resolve" then .error 422
  else if ¬ u.is_admin then .error 403
  else match db.sosEvents.find? (fun s => s.id == sos_id) with
  | none => .error 404
  | some _ =>
    if action = "review" then
      .ok (log_admin_action { db with sosEvents :=
          (updateFirstBy (fun s => s.id == sos_id)
            (fun s => { s with
                        status := "under_review", reviewed_at := some nowIso,
                        reviewed_by := some u.id, admin_notes := notes }) db.sosEvents) }
        u.id u.name "sos_review" "sos" sos_id nowIso)
    else
      .ok (log_admin_action { db with sosEvents :=
          (updateFirstBy (fun s => s.id == sos_id)
            (fun s => { s with
                        status := "resolved", resolved_at := some nowIso,
                        resolved_by := some u.id,
                        admin_notes :=
                          (match notes with
                          | some n => if n = "" then s.admin_notes else some n
                          | none => s.admin_notes) }) db.sosEvents) }
        u.id u.name "sos_resolve" "sos" sos_id nowIso)

/-! ### Generic lemmas about the store primitives -/

theorem find?_updateFirstBy_of_disjoint {α} (q p : α → Bool) (f : α → α)
    (hpf : ∀ x, p (f x) = p x) (hdisj : ∀ x, q x = true → p x = false) :
    ∀ l : List α, (updateFirstBy q f l).find? p = l.find? p := by
  intro l
  induction l with
  | nil => rfl
  | cons x xs ih =>
    by_cases hq : q x
    · have hpx : p x = false := hdisj x hq
      simp [updateFirstBy, hq, List.find?, hpf x, hpx, ih]
    · simp only [updateFirstBy, if_neg hq]
      by_cases hp : p x
      · simp [List.find?, hp]
      · simp only [List.find?]
        rw [Bool.not_eq_true] at hp
        simp [hp, ih]

theorem find?_updateFirstBy_self {α} (p : α → Bool) (f : α → α)
    (hpf : ∀ x, p (f x) = p x) :
    ∀ l : List α, (updateFirstBy p f l).find? p = (l.find? p).map f := by
  intro l
  induction l with
  | nil => rfl
  | cons x xs ih =>
    by_cases hp : p x
    · simp [updateFirstBy, hp, List.find?, hpf x]
    · rw [Bool.not_eq_true] at hp
      simp [updateFirstBy, hp, List.find?, ih]

theorem find?_updateManyBy {α} (q p : α → Bool) (f : α → α)
    (hpf : ∀ x, p (f x) = p x) :
    ∀ l : List α, (updateManyBy q f l).find? p
      = (l.find? p).map (fun x => if q x then f x else x) := by
  intro l
  induction l with
  | nil => rfl
  | cons x xs ih =>
    have hg : p (if q x then f x else x) = p x := by
      by_cases hq : q x <;> simp [hq, hpf x]
    by_cases hp : p x
    · simp [updateManyBy, List.find?, hg, hp]
    · rw [Bool.not_eq_true] at hp
      simp only [updateManyBy, List.map_cons, List.find?, hg, hp]
      simpa [updateManyBy] using ih

theorem countP_updateFirstBy {α} (q p : α → Bool) (f : α → α) :
    ∀ (l : List α) (x : α), l.find? q = some x →
      (updateFirstBy q f l).countP p + (if p x then 1 else 0)
        = l.countP p + (if p (f x) then 1 else 0) := by
  intro l
  induction l with
  | nil => intro x hx; simp [List.find?] at hx
  | cons a as ih =>
    intro x hx
    by_cases hq : q a
    · have hax : a = x := by simpa [List.find?, hq] using hx
      subst hax
      simp only [updateFirstBy, if_pos hq, List.countP_cons]
      by_cases hpa : p a <;> by_cases hpf : p (f a) <;> simp [hpa, hpf] <;> omega
    · have hx' : as.find? q = some x := by simpa [List.find?, hq] using hx
      simp only [updateFirstBy, if_neg hq, List.countP_cons]
      have := ih x hx'
      by_cases hpa : p a <;> simp [hpa] <;> omega

theorem find?_eq_some_of_filter {α} (Q p : α → Bool) (l : List α) (y : α)
    (h : (l.filter Q).find? p = some y) : y ∈ l ∧ p y = true := by
  have hy := List.find?_some h
  have hmem := List.mem_of_find?_eq_some h
  exact ⟨List.mem_of_mem_filter hmem, hy⟩

/-- With pairwise-distinct ids, any id-match inside any sub-collection of `l`
is the first id-match of `l` itself. -/
theorem eq_find?_of_nodup_ids {α} (idOf : α → Nat) (l : List α)
    (hnd : (l.map idOf).Nodup) (r : Nat) (x y : α)
    (hx : l.find? (fun z => idOf z == r) = some x)
    (hy : y ∈ l) (hyr : idOf y = r) : y = x := by
  have hxm := List.mem_of_find?_eq_some hx
  have hxr : idOf x = r := by simpa using List.find?_some hx
  exact List.inj_on_of_nodup_map hnd hy hxm (by rw [hyr, hxr])

/-- `reqStatus` against a sub-collection (`filter` chains) is either the
original status or gone, provided the request ids are pairwise distinct. -/
theorem reqStatus_sublist (l l' : List RideRequest)
    (hnd : (l.map (·.id)).Nodup)
    (hsub : ∀ y, y ∈ l' → y ∈ l) (r : Nat) :
    ((l'.find? fun x => x.id == r).map (·.status)
       = (l.find? fun x => x.id == r).map (·.status)) ∨
      (l'.find? fun x => x.id == r) = none := by
  cases hf' : l'.find? (fun x => x.id == r) with
  | none => exact Or.inr rfl
  | some y =>
    left
    have hy := List.find?_some hf'
    have hym := hsub y (List.mem_of_find?_eq_some hf')
    have hyr : y.id = r := by simpa using hy
    cases hf : l.find? (fun x => x.id == r) with
    | none =>
      rw [List.find?_eq_none] at hf
      exact absurd hy (by simpa using hf y hym)
    | some x =>
      have := eq_find?_of_nodup_ids (·.id) l hnd r x y hf hym hyr
      simp [this]

/-! ### Status evolution of each endpoint (used by the lifecycle claims) -/

theorem signup_rideRequests (db : DB) (e p n ro : String) (gph : String → String)
    (now : String) (nid : Nat) (db' : DB)
    (h : signup db e p n ro gph now nid = .ok db') :
    db'.rideRequests = db.rideRequests := by
  unfold signup at h
  split at h; · simp at h
  split at h; · simp at h
  split at h
  · simp at h
  · cases h; rfl

theorem submit_rating_rideRequests (db : DB) (rid rating : Nat) (fb : Option String)
    (u : User) (now : String) (nid : Nat) (db' : DB)
    (h : submit_rating db rid rating fb u now nid = .ok db') :
    db'.rideRequests = db.rideRequests := by
  unfold submit_rating at h
  split at h; · simp at h
  split at h; · simp at h
  split at h; · simp at h
  split at h; · simp at h
  split at h; · simp at h
  split at h; · simp at h
  cases h; rfl

theorem send_chat_message_rideRequests (db : DB) (rid : Nat) (msg : String) (u : User)
    (now : String) (nid : Nat) (db' : DB)
    (h : send_chat_message db rid msg u now nid = .ok db') :
    db'.rideRequests = db.rideRequests := by
  unfold send_chat_message at h
  split at h; · simp at h
  split at h; · simp at h
  split at h; · simp at h
  split at h; · simp at h
  split at h; · simp at h
  cases h; rfl

theorem trigger_sos_rideRequests (db : DB) (rid : Nat) (la lo : Option Int)
    (msg : Option String) (u : User) (now : String) (nid : Nat) (db' : DB)
    (h : trigger_sos db rid la lo msg u now nid = .ok db') :
    db'.rideRequests = db.rideRequests := by
  unfold trigger_sos at h
  split at h; · simp at h
  split at h; · simp at h
  split at h; · simp at h
  split at h; · simp at h
  split at h; · simp at h
  cases h; rfl

theorem admin_update_sos_rideRequests (db : DB) (sid : Nat) (action : String)
    (notes : Option String) (u : User) (now : String) (db' : DB)
    (h : admin_update_sos db sid action notes u now = .ok db') :
    db'.rideRequests = db.rideRequests := by
  unfold admin_update_sos at h
  split at h; · simp at h
  split at h; · simp at h
  split at h; · simp at h
  split at h
  · cases h; rfl
  · cases h; rfl

theorem create_ride_request_status (db : DB) (ride_id : Nat) (iu : Bool) (u : User)
    (nm : Int) (now : String) (nid : Nat) (db' : DB)
    (h : create_ride_request db ride_id iu u nm now nid = .ok db') (r : Nat) :
    reqStatus db' r = reqStatus db r ∨
      (reqStatus db r = none ∧ reqStatus db' r = some "requested") := by
  unfold create_ride_request at h
  split at h; · simp at h
  split at h; · simp at h
  split at h
  · simp at h
  · split at h; · simp at h
    split at h; · simp at h
    split at h; · simp at h
    split at h; · simp at h
    cases h
    simp only [reqStatus, List.find?_append]
    cases hf : db.rideRequests.find? (fun x => x.id == r) with
    | some x => left; simp
    | none =>
      by_cases hr : nid == r
      · right
        constructor
        · rfl
        · simp [List.find?, hr]
      · left
        simp [List.find?, hr]

theorem handle_ride_request_status (db : DB) (request_id : Nat) (action : String)
    (u : User) (pin nowIso : String) (db' : DB)
    (h : handle_ride_request db request_id action u pin nowIso = .ok db') (r : Nat) :
    reqStatus db' r = reqStatus db r ∨
      (r = request_id ∧ reqStatus db r = some "requested" ∧
        (reqStatus db' r = some "accepted" ∨ reqStatus db' r = some "rejected")) := by
  unfold handle_ride_request at h
  split at h; · simp at h
  split at h; · simp at h
  rename_i ride_request hfindreq
  split at h; · simp at h
  split at h; · simp at h
  split at h; · simp at h
  rename_i hstat
  split at h; · simp at h
  cases h
  rw [Decidable.not_not] at hstat
  have hpf : ∀ x : RideRequest,
      ((if action = "accept" then
          { x with
            status := "accepted", ride_pin := some pin,
            accepted_at := some nowIso }
        else { x with status := "rejected" }).id == r) = (x.id == r) := by
    intro x
    by_cases ha : action = "accept" <;> simp [ha]
  by_cases hr : r = request_id
  · subst hr
    right
    refine ⟨rfl, by simp [reqStatus, hfindreq, hstat], ?_⟩
    have := find?_updateFirstBy_self (fun x => x.id == r)
      (fun x =>
        if action = "accept" then
          { x with
            status := "accepted", ride_pin := some pin,
            accepted_at := some nowIso }
        else { x with status := "rejected" }) hpf db.rideRequests
    simp only [reqStatus, this, hfindreq, Option.map_some]
    by_cases ha : action = "accept" <;> simp [ha]
  · left
    have hdisj : ∀ x : RideRequest, (x.id == request_id) = true → (x.id == r) = false := by
      intro x hx
      have hx' : x.id = request_id := by simpa using hx
      have hne : x.id ≠ r := by omega
      simpa using hne
    have := find?_updateFirstBy_of_disjoint (fun x => x.id == request_id)
      (fun x => x.id == r)
      (fun x =>
        if action = "accept" then
          { x with
            status := "accepted", ride_pin := some pin,
            accepted_at := some nowIso }
        else { x with status := "rejected" }) hpf hdisj db.rideRequests
    simp [reqStatus, this]

/-- Success of `start_ride` means the target request was `accepted` with a
matching stored PIN, and the only status it changes is the target one, from
`accepted` to `ongoing`. -/
theorem start_ride_status (db : DB) (request_id : Nat) (pin : String) (u : User)
    (nowIso : String) (db' : DB)
    (h : start_ride db request_id pin u nowIso = .ok db') :
    (reqStatus db request_id = some "accepted" ∧
      reqRidePin db request_id = some (some pin)) ∧
    ∀ r, reqStatus db' r = reqStatus db r ∨
      (r = request_id ∧ reqStatus db r = some "accepted" ∧
        reqStatus db' r = some "ongoing") := by
  unfold start_ride at h
  split at h; · simp at h
  split at h; · simp at h
  rename_i ride_request hfindreq
  split at h; · simp at h
  split at h; · simp at h
  split at h; · simp at h
  rename_i hstat
  split at h; · simp at h
  rename_i hpin
  cases h
  rw [Decidable.not_not] at hstat hpin
  refine ⟨⟨by simp [reqStatus, hfindreq, hstat], by simp [reqRidePin, hfindreq, hpin]⟩, ?_⟩
  intro r
  by_cases hr : r = request_id
  · subst hr
    right
    refine ⟨rfl, by simp [reqStatus, hfindreq, hstat], ?_⟩
    have := find?_updateFirstBy_self (fun x => x.id == r)
      (fun x => { x with status := "ongoing", ride_started_at := some nowIso })
      (fun _ => rfl) db.rideRequests
    simp [reqStatus, this, hfindreq]
  · left
    have hdisj : ∀ x : RideRequest, (x.id == request_id) = true → (x.id == r) = false := by
      intro x hx
      have hx' : x.id = request_id := by simpa using hx
      have hne : x.id ≠ r := by omega
      simpa using hne
    have := find?_updateFirstBy_of_disjoint (fun x => x.id == request_id)
      (fun x => x.id == r)
      (fun x => { x with status := "ongoing", ride_started_at := some nowIso })
      (fun _ => rfl) hdisj db.rideRequests
    simp [reqStatus, this]

theorem mark_reached_safely_status (db : DB) (request_id : Nat) (u : User)
    (nowIso : String) (db' : DB)
    (h : mark_reached_safely db request_id u nowIso = .ok db') (r : Nat) :
    reqStatus db' r = reqStatus db r ∨
      (r = request_id ∧ reqStatus db r = some "ongoing" ∧
        reqStatus db' r = some "completed") := by
  unfold mark_reached_safely at h
  split at h; · simp at h
  rename_i ride_request hfindreq
  split at h; · simp at h
  split at h; · simp at h
  rename_i hstat
  rw [Decidable.not_not] at hstat
  have hreq' : db'.rideRequests = mrsUpdatedRequests db request_id nowIso := by
    split at h <;> (cases h; rfl)
  by_cases hr : r = request_id
  · subst hr
    right
    refine ⟨rfl, by simp [reqStatus, hfindreq, hstat], ?_⟩
    have := find?_updateFirstBy_self (fun x => x.id == r)
      (fun x => { x with
                  status := "completed", reached_safely_at := some nowIso,
                  completed_at := some nowIso })
      (fun _ => rfl) db.rideRequests
    simp [reqStatus, hreq', mrsUpdatedRequests, this, hfindreq]
  · left
    have hdisj : ∀ x : RideRequest, (x.id == request_id) = true → (x.id == r) = false := by
      intro x hx
      have hx' : x.id = request_id := by simpa using hx
      have hne : x.id ≠ r := by omega
      simpa using hne
    have := find?_updateFirstBy_of_disjoint (fun x => x.id == request_id)
      (fun x => x.id == r)
      (fun x => { x with
                  status := "completed", reached_safely_at := some nowIso,
                  completed_at := some nowIso })
      (fun _ => rfl) hdisj db.rideRequests
    simp [reqStatus, hreq', mrsUpdatedRequests, this]

theorem complete_ride_status (db : DB) (ride_id : Nat) (u : User)
    (nowIso : String) (db' : DB)
    (h : complete_ride db ride_id u nowIso = .ok db') (r : Nat) :
    reqStatus db' r = reqStatus db r ∨
      ((reqStatus db r = some "accepted" ∨ reqStatus db r = some "ongoing") ∧
        reqStatus db' r = some "completed") := by
  unfold complete_ride at h
  split at h; · simp at h
  split at h; · simp at h
  cases h
  have hmany := find?_updateManyBy
    (fun x => x.ride_id == ride_id && (x.status == "accepted" || x.status == "ongoing"))
    (fun x => x.id == r)
    (fun x => { x with status := "completed", completed_at := some nowIso })
    (fun _ => rfl) db.rideRequests
  simp only [reqStatus, hmany]
  cases hf : db.rideRequests.find? (fun x => x.id == r) with
  | none => left; rfl
  | some x =>
    by_cases hp : (x.ride_id == ride_id && (x.status == "accepted" || x.status == "ongoing")) = true
    · right
      have hs : x.status = "accepted" ∨ x.status = "ongoing" := by
        rcases Bool.and_eq_true_iff.mp hp with ⟨-, hsor⟩
        rcases Bool.or_eq_true_iff.mp hsor with hs | hs
        · exact Or.inl (by simpa using hs)
        · exact Or.inr (by simpa using hs)
      constructor
      · rcases hs with hs | hs <;> simp [hs]
      · simp only [Option.map_some', if_pos hp]
    · left
      simp only [Option.map_some', if_neg hp]

theorem delete_ride_status (db : DB) (ride_id : Nat) (u : User) (db' : DB)
    (hnd : (db.rideRequests.map (·.id)).Nodup)
    (h : delete_ride db ride_id u = .ok db') (r : Nat) :
    reqStatus db' r = reqStatus db r ∨ reqStatus db' r = none := by
  unfold delete_ride at h
  split at h; · simp at h
  split at h; · simp at h
  cases h
  have := reqStatus_sublist db.rideRequests
    (deleteManyBy (fun x => x.ride_id == ride_id) db.rideRequests) hnd
    (fun y hy => List.mem_of_mem_filter hy) r
  simpa [reqStatus] using this

theorem admin_delete_user_status (db : DB) (user_id : Nat) (u : User)
    (nowIso : String) (db' : DB)
    (hnd : (db.rideRequests.map (·.id)).Nodup)
    (h : admin_delete_user db user_id u nowIso = .ok db') (r : Nat) :
    reqStatus db' r = reqStatus db r ∨ reqStatus db' r = none := by
  unfold admin_delete_user at h
  split at h; · simp at h
  split at h; · simp at h
  split at h; · simp at h
  cases h
  have hmem : ∀ y, y ∈ deleteManyBy (fun x => x.rider_id == user_id)
      (reqsAfterVictimRideDelete db user_id) → y ∈ db.rideRequests := by
    intro y hy
    have hy1 : y ∈ reqsAfterVictimRideDelete db user_id := List.mem_of_mem_filter hy
    unfold reqsAfterVictimRideDelete at hy1
    split at hy1
    · exact hy1
    · exact List.mem_of_mem_filter hy1
  have := reqStatus_sublist db.rideRequests
    (deleteManyBy (fun x => x.rider_id == user_id)
      (reqsAfterVictimRideDelete db user_id)) hnd hmem r
  simpa [reqStatus, log_admin_action] using this

/-! ### A call to any state-mutating endpoint -/

/-- One call to a state-mutating endpoint of the service, with every input
the handler consumes (body, authenticated user, clock, generated values). -/
inductive Call where
  | signupC (email password name role : String) (gph : String → String)
      (nowIso : String) (newId : Nat)
  | createRideRequestC (ride_id : Nat) (is_urgent : Bool) (u : User)
      (nowMins : Int) (nowIso : String) (newId : Nat)
  | handleRideRequestC (request_id : Nat) (action : String) (u : User)
      (pin : String) (nowIso : String)
  | startRideC (request_id : Nat) (pin : String) (u : User) (nowIso : String)
  | markReachedSafelyC (request_id : Nat) (u : User) (nowIso : String)
  | completeRideC (ride_id : Nat) (u : User) (nowIso : String)
  | deleteRideC (ride_id : Nat) (u : User)
  | adminDeleteUserC (user_id : Nat) (u : User) (nowIso : String)
  | submitRatingC (ride_request_id rating : Nat) (feedback : Option String)
      (u : User) (nowIso : String) (newId : Nat)
  | sendChatMessageC (request_id : Nat) (message : String) (u : User)
      (nowIso : String) (newId : Nat)
  | triggerSOSC (ride_request_id : Nat) (latitude longitude : Option Int)
      (message : Option String) (u : User) (nowIso : String) (newId : Nat)
  | adminUpdateSOSC (sos_id : Nat) (action : String) (notes : Option String)
      (u : User) (nowIso : String)

/-- Dispatch a call to its handler. -/
def applyCall : Call → DB → Except Nat DB
  | .signupC e p n ro gph now nid, db => signup db e p n ro gph now nid
  | .createRideRequestC rid iu u nm now nid, db => create_ride_request db rid iu u nm now nid
  | .handleRideRequestC rid act u pin now, db => handle_ride_request db rid act u pin now
  | .startRideC rid pin u now, db => start_ride db rid pin u now
  | .markReachedSafelyC rid u now, db => mark_reached_safely db rid u now
  | .completeRideC rid u now, db => complete_ride db rid u now
  | .deleteRideC rid u, db => delete_ride db rid u
  | .adminDeleteUserC uid u now, db => admin_delete_user db uid u now
  | .submitRatingC rid rating fb u now nid, db => submit_rating db rid rating fb u now nid
  | .sendChatMessageC rid msg u now nid, db => send_chat_message db rid msg u now nid
  | .triggerSOSC rid la lo msg u now nid, db => trigger_sos db rid la lo msg u now nid
  | .adminUpdateSOSC sid act notes u now, db => admin_update_sos db sid act notes u now

theorem reqStatus_congr (db db' : DB) (h : db'.rideRequests = db.rideRequests) (r : Nat) :
    reqStatus db' r = reqStatus db r := by
  unfold reqStatus; rw [h]

/-- The request-status transition relation asserted by the spec:
requested to accepted or rejected, accepted to ongoing, ongoing to
completed, nothing out of rejected or completed. -/
def SpecTransition (s s' : String) : Prop :=
  (s = "requested" ∧ (s' = "accepted" ∨ s' = "rejected")) ∨
  (s = "accepted" ∧ s' = "ongoing") ∨
  (s = "ongoing" ∧ s' = "completed")

/-- The transition relation the code actually implements: additionally,
the driver `complete_ride` endpoint moves `accepted` requests straight to
`completed`. -/
def CodeTransition (s s' : String) : Prop :=
  SpecTransition s s' ∨ (s = "accepted" ∧ s' = "completed")

/-- C1 (amended): under distinct request ids, every status change a
state-mutating endpoint call performs on a ride request follows the code
transition relation: requested to accepted/rejected, accepted to ongoing,
ongoing to completed, and also accepted to completed (via the driver
complete-ride endpoint); nothing leaves `rejected` or `completed`. -/
theorem C1_transitions_theorem
    (c : Call) (db db' : DB)
    (hnd : (db.rideRequests.map (·.id)).Nodup)
    (h : applyCall c db = .ok db')
    (r : Nat) (s s' : String)
    (hs : reqStatus db r = some s) (hs' : reqStatus db' r = some s')
    (hne : s ≠ s') : CodeTransition s s' := by
  cases c with
  | signupC e p n ro gph now nid =>
    have heq := reqStatus_congr db db' (signup_rideRequests db e p n ro gph now nid db' h) r
    rw [heq, hs] at hs'
    exact absurd (Option.some.inj hs') hne
  | submitRatingC rid rating fb u now nid =>
    have heq := reqStatus_congr db db'
      (submit_rating_rideRequests db rid rating fb u now nid db' h) r
    rw [heq, hs] at hs'
    exact absurd (Option.some.inj hs') hne
  | sendChatMessageC rid msg u now nid =>
    have heq := reqStatus_congr db db'
      (send_chat_message_rideRequests db rid msg u now nid db' h) r
    rw [heq, hs] at hs'
    exact absurd (Option.some.inj hs') hne
  | triggerSOSC rid la lo msg u now nid =>
    have heq := reqStatus_congr db db'
      (trigger_sos_rideRequests db rid la lo msg u now nid db' h) r
    rw [heq, hs] at hs'
    exact absurd (Option.some.inj hs') hne
  | adminUpdateSOSC sid act notes u now =>
    have heq := reqStatus_congr db db'
      (admin_update_sos_rideRequests db sid act notes u now db' h) r
    rw [heq, hs] at hs'
    exact absurd (Option.some.inj hs') hne
  | createRideRequestC rid iu u nm now nid =>
    rcases create_ride_request_status db rid iu u nm now nid db' h r with heq | ⟨hnone, _⟩
    · rw [heq, hs] at hs'
      exact absurd (Option.some.inj hs') hne
    · rw [hnone] at hs; cases hs
  | handleRideRequestC rid act u pin now =>
    rcases handle_ride_request_status db rid act u pin now db' h r with heq | ⟨-, hreq, hacc⟩
    · rw [heq, hs] at hs'
      exact absurd (Option.some.inj hs') hne
    · rw [hs] at hreq
      rcases hacc with hacc | hacc <;> rw [hs'] at hacc <;>
        exact Or.inl (Or.inl ⟨Option.some.inj hreq, by
          first
          | exact Or.inl (Option.some.inj hacc)
          | exact Or.inr (Option.some.inj hacc)⟩)
  | startRideC rid pin u now =>
    rcases (start_ride_status db rid pin u now db' h).2 r with heq | ⟨-, hacc, hong⟩
    · rw [heq, hs] at hs'
      exact absurd (Option.some.inj hs') hne
    · rw [hs] at hacc; rw [hs'] at hong
      exact Or.inl (Or.inr (Or.inl ⟨Option.some.inj hacc, Option.some.inj hong⟩))
  | markReachedSafelyC rid u now =>
    rcases mark_reached_safely_status db rid u now db' h r with heq | ⟨-, hong, hcomp⟩
    · rw [heq, hs] at hs'
      exact absurd (Option.some.inj hs') hne
    · rw [hs] at hong; rw [hs'] at hcomp
      exact Or.inl (Or.inr (Or.inr ⟨Option.some.inj hong, Option.some.inj hcomp⟩))
  | completeRideC rid u now =>
    rcases complete_ride_status db rid u now db' h r with heq | ⟨hpre, hcomp⟩
    · rw [heq, hs] at hs'
      exact absurd (Option.some.inj hs') hne
    · rw [hs'] at hcomp
      rcases hpre with hpre | hpre <;> rw [hs] at hpre
      · exact Or.inr ⟨Option.some.inj hpre, Option.some.inj hcomp⟩
      · exact Or.inl (Or.inr (Or.inr ⟨Option.some.inj hpre, Option.some.inj hcomp⟩))
  | deleteRideC rid u =>
    rcases delete_ride_status db rid u db' hnd h r with heq | hgone
    · rw [heq, hs] at hs'
      exact absurd (Option.some.inj hs') hne
    · rw [hgone] at hs'; cases hs'
  | adminDeleteUserC uid u now =>
    rcases admin_delete_user_status db uid u now db' hnd h r with heq | hgone
    · rw [heq, hs] at hs'
      exact absurd (Option.some.inj hs') hne
    · rw [hgone] at hs'; cases hs'
/-- Demo store: one active ride by driver 10 with one accepted request. -/
def c1db : DB :=
  { users := [{ id := 10, email := "d@rvce.edu.in", password := "h", name := "D",
                role := "driver", verification_status := "verified" }],
    rides := [{ id := 1, driver_id := 10, source := "campus", destination := "city",
                date := "2024-01-01", time := "10:00", available_seats := 2,
                estimated_cost := 50, status := "active" }],
    rideRequests := [{ id := 2, ride_id := 1, rider_id := 20, status := "accepted",
                       ride_pin := some "1234" }],
    chatMessages := [], ratings := [], sosEvents := [], reports := [], auditLogs := [] }

def c1driver : User :=
  { id := 10, email := "d@rvce.edu.in", password := "h", name := "D",
    role := "driver", verification_status := "verified" }

def c1call : Call := .completeRideC 1 c1driver "t1"

def c1dbAfter : DB := ((applyCall c1call c1db).toOption).getD c1db

/-- C1 counterexample: the driver complete-ride endpoint succeeds on the demo
store and moves request 2 from `accepted` straight to `completed`, a
transition the claimed state machine forbids. -/
theorem C1_counterexample :
    applyCall c1call c1db = .ok c1dbAfter ∧
    reqStatus c1db 2 = some "accepted" ∧
    reqStatus c1dbAfter 2 = some "completed" ∧
    (c1db.rideRequests.map (·.id)).Nodup ∧
    ¬ SpecTransition "accepted" "completed" := by
  refine ⟨rfl, rfl, rfl, ?_, ?_⟩
  · decide
  · intro hc
    rcases hc with ⟨hc, -⟩ | ⟨-, hc⟩ | ⟨hc, -⟩ <;> simp at hc

/-- C1 witness: the amended theorem applied to the demo store. -/
theorem C1_witness : CodeTransition "accepted" "completed" :=
  C1_transitions_theorem c1call c1db c1dbAfter (by decide) rfl 2 "accepted" "completed"
    rfl rfl (by decide)

/-- C2: among all state-mutating endpoint calls, only a start-ride call on
request `r` can make the status of `r` become `ongoing`, and then the
request was `accepted` and its stored PIN equals the PIN the caller sent. -/
theorem C2_only_start_ride_sets_ongoing
    (c : Call) (db db' : DB)
    (hnd : (db.rideRequests.map (·.id)).Nodup)
    (h : applyCall c db = .ok db')
    (r : Nat)
    (hnot : reqStatus db r ≠ some "ongoing")
    (hnow : reqStatus db' r = some "ongoing") :
    ∃ pin u nowIso, c = .startRideC r pin u nowIso ∧
      reqStatus db r = some "accepted" ∧ reqRidePin db r = some (some pin) := by
  cases c with
  | signupC e p n ro gph now nid =>
    have heq := reqStatus_congr db db' (signup_rideRequests db e p n ro gph now nid db' h) r
    rw [heq] at hnow; exact absurd hnow hnot
  | submitRatingC rid rating fb u now nid =>
    have heq := reqStatus_congr db db'
      (submit_rating_rideRequests db rid rating fb u now nid db' h) r
    rw [heq] at hnow; exact absurd hnow hnot
  | sendChatMessageC rid msg u now nid =>
    have heq := reqStatus_congr db db'
      (send_chat_message_rideRequests db rid msg u now nid db' h) r
    rw [heq] at hnow; exact absurd hnow hnot
  | triggerSOSC rid la lo msg u now nid =>
    have heq := reqStatus_congr db db'
      (trigger_sos_rideRequests db rid la lo msg u now nid db' h) r
    rw [heq] at hnow; exact absurd hnow hnot
  | adminUpdateSOSC sid act notes u now =>
    have heq := reqStatus_congr db db'
      (admin_update_sos_rideRequests db sid act notes u now db' h) r
    rw [heq] at hnow; exact absurd hnow hnot
  | createRideRequestC rid iu u nm now nid =>
    rcases create_ride_request_status db rid iu u nm now nid db' h r with heq | ⟨-, hreq⟩
    · rw [heq] at hnow; exact absurd hnow hnot
    · rw [hnow] at hreq; simp at hreq
  | handleRideRequestC rid act u pin now =>
    rcases handle_ride_request_status db rid act u pin now db' h r with heq | ⟨-, -, hacc⟩
    · rw [heq] at hnow; exact absurd hnow hnot
    · rcases hacc with hacc | hacc <;> rw [hnow] at hacc <;> simp at hacc
  | markReachedSafelyC rid u now =>
    rcases mark_reached_safely_status db rid u now db' h r with heq | ⟨-, -, hcomp⟩
    · rw [heq] at hnow; exact absurd hnow hnot
    · rw [hnow] at hcomp; simp at hcomp
  | completeRideC rid u now =>
    rcases complete_ride_status db rid u now db' h r with heq | ⟨-, hcomp⟩
    · rw [heq] at hnow; exact absurd hnow hnot
    · rw [hnow] at hcomp; simp at hcomp
  | deleteRideC rid u =>
    rcases delete_ride_status db rid u db' hnd h r with heq | hgone
    · rw [heq] at hnow; exact absurd hnow hnot
    · rw [hgone] at hnow; cases hnow
  | adminDeleteUserC uid u now =>
    rcases admin_delete_user_status db uid u now db' hnd h r with heq | hgone
    · rw [heq] at hnow; exact absurd hnow hnot
    · rw [hgone] at hnow; cases hnow
  | startRideC rid pin u now =>
    obtain ⟨⟨hacc, hpin⟩, hall⟩ := start_ride_status db rid pin u now db' h
    rcases hall r with heq | ⟨hrid, hacc', -⟩
    · rw [heq] at hnow; exact absurd hnow hnot
    · subst hrid
      exact ⟨pin, u, now, rfl, hacc', hpin⟩

def c2call : Call := .startRideC 2 "1234" c1driver "t2"

def c2dbAfter : DB := ((applyCall c2call c1db).toOption).getD c1db

/-- C2 witness: starting the accepted request of the demo store with the
right PIN exercises the theorem. -/
theorem C2_witness :
    ∃ pin u nowIso, c2call = Call.startRideC 2 pin u nowIso ∧
      reqStatus c1db 2 = some "accepted" ∧ reqRidePin c1db 2 = some (some pin) :=
  C2_only_start_ride_sets_ongoing c2call c1db c2dbAfter (by decide) rfl 2
    (by decide) rfl
/-! ### C3: the seat check in driver acceptance -/

/-- C3: (accept path of `handle_ride_request`) a successful acceptance
implies the accepted-or-ongoing count of the ride was strictly below
`available_seats` and afterwards grew by exactly one, hence still at most
`available_seats`; and when the count has already reached `available_seats`
(with all other guards passing) the call returns HTTP 400 and writes
nothing. -/
theorem C3_seat_check_theorem
    (db : DB) (request_id : Nat) (u : User) (pin nowIso : String) :
    (∀ db', handle_ride_request db request_id "accept" u pin nowIso = .ok db' →
      ∃ rr rd, db.rideRequests.find? (fun x => x.id == request_id) = some rr ∧
        db.rides.find? (fun x => x.id == rr.ride_id) = some rd ∧
        countAcceptedOngoing db rr.ride_id < rd.available_seats ∧
        countAcceptedOngoing db' rr.ride_id = countAcceptedOngoing db rr.ride_id + 1 ∧
        countAcceptedOngoing db' rr.ride_id ≤ rd.available_seats) ∧
    (∀ rr rd, db.rideRequests.find? (fun x => x.id == request_id) = some rr →
      db.rides.find? (fun x => x.id == rr.ride_id) = some rd →
      rd.driver_id = u.id → rr.status = "requested" →
      rd.available_seats ≤ countAcceptedOngoing db rr.ride_id →
      handle_ride_request db request_id "accept" u pin nowIso = .error 400) := by
  constructor
  · intro db' h
    unfold handle_ride_request at h
    split at h; · simp at h
    split at h; · simp at h
    rename_i rr hfindreq
    split at h; · simp at h
    rename_i rd hfindride
    split at h; · simp at h
    split at h; · simp at h
    rename_i hstat
    split at h; · simp at h
    rename_i hseats
    cases h
    rw [Decidable.not_not] at hstat
    have hlt : countAcceptedOngoing db rr.ride_id < rd.available_seats := by
      rcases Nat.lt_or_ge (countAcceptedOngoing db rr.ride_id) rd.available_seats with hlt | hge
      · exact hlt
      · exact absurd hge (by simpa using hseats)
    have hcount := countP_updateFirstBy (fun x => x.id == request_id)
      (fun x => x.ride_id == rr.ride_id &&
        (x.status == "accepted" || x.status == "ongoing"))
      (fun x =>
        if "accept" = "accept" then
          { x with
            status := "accepted", ride_pin := some pin,
            accepted_at := some nowIso }
        else { x with status := "rejected" })
      db.rideRequests rr hfindreq
    simp only [hstat] at hcount
    simp at hcount
    have hstep : countAcceptedOngoing
        { db with rideRequests :=
          (updateFirstBy (fun x => x.id == request_id)
            (fun x =>
              if "accept" = "accept" then
                { x with
                  status := "accepted", ride_pin := some pin,
                  accepted_at := some nowIso }
              else { x with status := "rejected" })
            db.rideRequests) } rr.ride_id
        = countAcceptedOngoing db rr.ride_id + 1 := by
      simpa [countAcceptedOngoing, countAcceptedOngoingIn] using hcount
    exact ⟨rr, rd, hfindreq, hfindride, hlt, hstep, by omega⟩
  · intro rr rd hfindreq hfindride hdrv hstat hfull
    unfold handle_ride_request
    rw [if_neg (by simp)]
    simp only [hfindreq, hfindride]
    rw [if_neg (by simp [hdrv])]
    rw [if_neg (by simp [hstat])]
    rw [if_pos ⟨by trivial, hfull⟩]

def c3db : DB :=
  { users := [{ id := 10, email := "d@rvce.edu.in", password := "h", name := "D",
                role := "driver", verification_status := "verified" }],
    rides := [{ id := 1, driver_id := 10, source := "campus", destination := "city",
                date := "2024-01-01", time := "10:00", available_seats := 1,
                estimated_cost := 50, status := "active" }],
    rideRequests := [{ id := 2, ride_id := 1, rider_id := 20, status := "requested" }],
    chatMessages := [], ratings := [], sosEvents := [], reports := [], auditLogs := [] }

def c3dbAfter : DB :=
  ((handle_ride_request c3db 2 "accept" c1driver "4321" "t3").toOption).getD c3db

/-- C3 witness: accepting the only request of a one-seat ride on the demo
store exercises the success half of the theorem. -/
theorem C3_witness :
    ∃ rr rd, c3db.rideRequests.find? (fun x => x.id == 2) = some rr ∧
      c3db.rides.find? (fun x => x.id == rr.ride_id) = some rd ∧
      countAcceptedOngoing c3db rr.ride_id < rd.available_seats ∧
      countAcceptedOngoing c3dbAfter rr.ride_id = countAcceptedOngoing c3db rr.ride_id + 1 ∧
      countAcceptedOngoing c3dbAfter rr.ride_id ≤ rd.available_seats :=
  (C3_seat_check_theorem c3db 2 c1driver "4321" "t3").1 c3dbAfter rfl

/-! ### C4: one rating per (request, rater) -/

/-- C4: `submit_rating` fails with 400 when the caller already rated the
request, fails when the request is not `completed`, fails with 403 when the
caller is neither the rider nor the driver, and on success appends exactly
one rating for a (request, rater) pair that had none, preserving the at
most-one-rating-per-pair bound. -/
theorem C4_rating_unique_theorem
    (db : DB) (ride_request_id rating : Nat) (fb : Option String) (u : User)
    (nowIso : String) (newId : Nat) :
    (∀ db', submit_rating db ride_request_id rating fb u nowIso newId = .ok db' →
      ∃ rr rd, db.rideRequests.find? (fun x => x.id == ride_request_id) = some rr ∧
        rr.status = "completed" ∧
        db.rides.find? (fun x => x.id == rr.ride_id) = some rd ∧
        (u.id = rr.rider_id ∨ u.id = rd.driver_id) ∧
        db.ratings.find?
          (fun t => t.ride_request_id == ride_request_id && t.rater_id == u.id) = none ∧
        ∃ newRating, db'.ratings = db.ratings ++ [newRating] ∧
          newRating.ride_request_id = ride_request_id ∧ newRating.rater_id = u.id ∧
          ∀ rid2 uid2,
            db.ratings.countP
              (fun t => t.ride_request_id == rid2 && t.rater_id == uid2) ≤ 1 →
            db'.ratings.countP
              (fun t => t.ride_request_id == rid2 && t.rater_id == uid2) ≤ 1) ∧
    (∀ rr rd ex, 1 ≤ rating → rating ≤ 5 →
      db.rideRequests.find? (fun x => x.id == ride_request_id) = some rr →
      rr.status = "completed" →
      db.rides.find? (fun x => x.id == rr.ride_id) = some rd →
      (u.id = rr.rider_id ∨ u.id = rd.driver_id) →
      db.ratings.find?
        (fun t => t.ride_request_id == ride_request_id && t.rater_id == u.id) = some ex →
      submit_rating db ride_request_id rating fb u nowIso newId = .error 400) ∧
    (∀ rr, 1 ≤ rating → rating ≤ 5 →
      db.rideRequests.find? (fun x => x.id == ride_request_id) = some rr →
      rr.status ≠ "completed" →
      submit_rating db ride_request_id rating fb u nowIso newId = .error 400) ∧
    (∀ rr rd, 1 ≤ rating → rating ≤ 5 →
      db.rideRequests.find? (fun x => x.id == ride_request_id) = some rr →
      rr.status = "completed" →
      db.rides.find? (fun x => x.id == rr.ride_id) = some rd →
      u.id ≠ rr.rider_id → u.id ≠ rd.driver_id →
      submit_rating db ride_request_id rating fb u nowIso newId = .error 403) := by
  refine ⟨?_, ?_, ?_, ?_⟩
  · intro db' h
    unfold submit_rating at h
    split at h; · simp at h
    split at h; · simp at h
    rename_i rr hfindreq
    split at h; · simp at h
    rename_i hstat
    split at h; · simp at h
    rename_i rd hfindride
    rw [Decidable.not_not] at hstat
    split at h; · simp at h
    rename_i target htarget
    split at h; · simp at h
    rename_i hdup
    cases h
    have hpart : u.id = rr.rider_id ∨ u.id = rd.driver_id := by
      by_cases h1 : u.id = rr.rider_id
      · exact Or.inl h1
      · by_cases h2 : u.id = rd.driver_id
        · exact Or.inr h2
        · rw [rating_target, if_neg h1, if_neg h2] at htarget
          cases htarget
    refine ⟨rr, rd, hfindreq, hstat, hfindride, hpart, hdup, _, rfl, rfl, rfl, ?_⟩
    intro rid2 uid2 hle
    rw [List.countP_append]
    by_cases hmatch : (ride_request_id == rid2 && u.id == uid2) = true
    · rcases Bool.and_eq_true_iff.mp hmatch with ⟨h1, h2⟩
      have h1' : ride_request_id = rid2 := by simpa using h1
      have h2' : u.id = uid2 := by simpa using h2
      subst h1'
      subst h2'
      have hzero : db.ratings.countP
          (fun t => t.ride_request_id == ride_request_id && t.rater_id == u.id) = 0 := by
        rw [List.countP_eq_zero]
        intro a ha
        rw [List.find?_eq_none] at hdup
        exact fun hc => (hdup a ha) hc
      rw [hzero]
      simp only [List.countP_cons, List.countP_nil]
      split <;> omega
    · have hm : (ride_request_id == rid2 && u.id == uid2) = false := by
        simpa using hmatch
      simp only [List.countP_cons, List.countP_nil]
      simp [hm]
      omega
  · intro rr rd ex h1r h5r hfindreq hstat hfindride hpart hdup
    unfold submit_rating
    rw [if_neg (by omega)]
    simp only [hfindreq, hfindride]
    rw [if_neg (by simp [hstat])]
    have hpair : rating_target u rr rd ≠ none := by
      unfold rating_target
      rcases hpart with h1 | h1
      · rw [if_pos h1]; simp
      · by_cases h2 : u.id = rr.rider_id
        · rw [if_pos h2]; simp
        · rw [if_neg h2, if_pos h1]; simp
    cases hp : rating_target u rr rd with
    | none => exact absurd hp hpair
    | some target => simp only [hp, hdup]
  · intro rr h1r h5r hfindreq hstat
    unfold submit_rating
    rw [if_neg (by omega)]
    simp only [hfindreq]
    rw [if_pos hstat]
  · intro rr rd h1r h5r hfindreq hstat hfindride hnr hnd
    unfold submit_rating
    rw [if_neg (by omega)]
    simp only [hfindreq, hfindride]
    rw [if_neg (by simp [hstat])]
    unfold rating_target
    rw [if_neg hnr, if_neg hnd]

def c4db : DB :=
  { users := [],
    rides := [{ id := 1, driver_id := 10, source := "campus", destination := "city",
                date := "2024-01-01", time := "10:00", available_seats := 2,
                estimated_cost := 50, status := "completed" }],
    rideRequests := [{ id := 2, ride_id := 1, rider_id := 20, status := "completed" }],
    chatMessages := [], ratings := [], sosEvents := [], reports := [], auditLogs := [] }

def c4rider : User :=
  { id := 20, email := "r@rvce.edu.in", password := "h", name := "R",
    role := "rider", verification_status := "verified" }

def c4dbAfter : DB :=
  ((submit_rating c4db 2 5 none c4rider "t4" 7).toOption).getD c4db

/-- C4 witness: the rider rates the completed demo request once. -/
theorem C4_witness :
    ∃ rr rd, c4db.rideRequests.find? (fun x => x.id == 2) = some rr ∧
      rr.status = "completed" ∧
      c4db.rides.find? (fun x => x.id == rr.ride_id) = some rd ∧
      (c4rider.id = rr.rider_id ∨ c4rider.id = rd.driver_id) ∧
      c4db.ratings.find?
        (fun t => t.ride_request_id == 2 && t.rater_id == c4rider.id) = none ∧
      ∃ newRating, c4dbAfter.ratings = c4db.ratings ++ [newRating] ∧
        newRating.ride_request_id = 2 ∧ newRating.rater_id = c4rider.id ∧
        ∀ rid2 uid2,
          c4db.ratings.countP
            (fun t => t.ride_request_id == rid2 && t.rater_id == uid2) ≤ 1 →
          c4dbAfter.ratings.countP
            (fun t => t.ride_request_id == rid2 && t.rater_id == uid2) ≤ 1 :=
  (C4_rating_unique_theorem c4db 2 5 none c4rider "t4" 7).1 c4dbAfter rfl
/-! ### C5: admin user deletion cascades -/

theorem mem_of_mem_deleteManyBy {α} (p : α → Bool) (l : List α) (y : α)
    (h : y ∈ deleteManyBy p l) : y ∈ l ∧ p y = false := by
  unfold deleteManyBy at h
  have hm := List.mem_filter.mp h
  exact ⟨hm.1, by simpa using hm.2⟩

theorem contains_eq_true_of_mem {α} [BEq α] [LawfulBEq α] {l : List α} {x : α}
    (h : x ∈ l) : l.contains x = true := by
  show l.elem x = true
  exact List.elem_eq_true_of_mem h

/-- After `eraseP` on an id predicate, no survivor carries the erased id,
provided the ids were pairwise distinct. -/
theorem idOf_ne_of_mem_eraseP {α} (idOf : α → Nat) (tid : Nat) :
    ∀ l : List α, (l.map idOf).Nodup →
      ∀ y ∈ l.eraseP (fun z => idOf z == tid), idOf y ≠ tid := by
  intro l
  induction l with
  | nil => intro _ y hy; simp [List.eraseP] at hy
  | cons x xs ih =>
    intro hnd y hy
    rw [List.map_cons, List.nodup_cons] at hnd
    by_cases hx : (idOf x == tid) = true
    · simp only [List.eraseP_cons, hx, cond_true] at hy
      intro hya
      have hxa : idOf x = tid := by simpa using hx
      exact hnd.1 (by
        rw [hxa, ← hya]
        exact List.mem_map_of_mem idOf hy)
    · have hxf : (idOf x == tid) = false := by simpa using hx
      simp only [List.eraseP_cons, hxf, cond_false] at hy
      rcases List.mem_cons.mp hy with rfl | hy'
      · simpa using hxf
      · exact ih hnd.2 y hy'

/-- Chat messages carry a copy of the ride id of their request; this is true
of every message `send_chat_message` creates and is assumed of the store. -/
def ChatConsistent (db : DB) : Prop :=
  ∀ m ∈ db.chatMessages, ∀ rr ∈ db.rideRequests,
    m.ride_request_id = rr.id → m.ride_id = rr.ride_id

/-- C5: after a successful admin delete of user U (distinct user and request
ids, chat messages consistent with their requests): no ride driven by U, no
request by U, no request on a ride U drove, no rating by or about U, no chat
message sent by U or attached to a ride U drove or to a request U made, and
no user document with id U remain; moreover `send_chat_message`, the only
creator of chat messages, preserves the consistency assumption. -/
theorem C5_delete_cascade_theorem
    (db : DB) (user_id : Nat) (u : User) (nowIso : String) (db' : DB)
    (hndu : (db.users.map (·.id)).Nodup)
    (hcc : ChatConsistent db)
    (h : admin_delete_user db user_id u nowIso = .ok db') :
    ((∀ rd ∈ db'.rides, rd.driver_id ≠ user_id) ∧
     (∀ rr ∈ db'.rideRequests, rr.rider_id ≠ user_id) ∧
     (∀ rr ∈ db'.rideRequests, ∀ rd ∈ db.rides, rd.driver_id = user_id →
        rr.ride_id ≠ rd.id) ∧
     (∀ t ∈ db'.ratings, t.rater_id ≠ user_id ∧ t.rated_user_id ≠ user_id) ∧
     (∀ m ∈ db'.chatMessages, m.sender_id ≠ user_id) ∧
     (∀ m ∈ db'.chatMessages, ∀ rd ∈ db.rides, rd.driver_id = user_id →
        m.ride_id ≠ rd.id) ∧
     (∀ m ∈ db'.chatMessages, ∀ rr ∈ db.rideRequests, rr.rider_id = user_id →
        m.ride_request_id ≠ rr.id) ∧
     (∀ us ∈ db'.users, us.id ≠ user_id)) ∧
    (∀ (dbx : DB) (rid : Nat) (msg : String) (ux : User) (nx : String) (nidx : Nat)
        (dbx' : DB), (dbx.rideRequests.map (·.id)).Nodup → ChatConsistent dbx →
      send_chat_message dbx rid msg ux nx nidx = .ok dbx' → ChatConsistent dbx') := by
  constructor
  · unfold admin_delete_user at h
    split at h; · simp at h
    split at h; · simp at h
    split at h; · simp at h
    cases h
    have hridesub : ∀ y, y ∈ reqsAfterVictimRideDelete db user_id →
        y ∈ db.rideRequests ∧ ((victimRideIds db user_id).contains y.ride_id = false ∨
          victimRideIds db user_id = []) := by
      intro y hy
      unfold reqsAfterVictimRideDelete at hy
      split at hy
      · rename_i hemp
        exact ⟨hy, Or.inr (List.isEmpty_iff.mp hemp)⟩
      · have := mem_of_mem_deleteManyBy _ _ _ hy
        exact ⟨this.1, Or.inl this.2⟩
    have hchatsub : ∀ m, m ∈ chatAfterVictimRideDelete db user_id →
        m ∈ db.chatMessages ∧ ((victimRideIds db user_id).contains m.ride_id = false ∨
          victimRideIds db user_id = []) := by
      intro m hm
      unfold chatAfterVictimRideDelete at hm
      split at hm
      · rename_i hemp
        exact ⟨hm, Or.inr (List.isEmpty_iff.mp hemp)⟩
      · have := mem_of_mem_deleteManyBy _ _ _ hm
        exact ⟨this.1, Or.inl this.2⟩
    have hchatsub2 : ∀ m, m ∈ chatAfterVictimRequestDelete db user_id →
        m ∈ chatAfterVictimRideDelete db user_id ∧
          ((victimRequestIds db user_id).contains m.ride_request_id = false ∨
            victimRequestIds db user_id = []) := by
      intro m hm
      unfold chatAfterVictimRequestDelete at hm
      split at hm
      · rename_i hemp
        exact ⟨hm, Or.inr (List.isEmpty_iff.mp hemp)⟩
      · have := mem_of_mem_deleteManyBy _ _ _ hm
        exact ⟨this.1, Or.inl this.2⟩
    have hvictim : ∀ rd, rd ∈ db.rides → rd.driver_id = user_id →
        rd.id ∈ victimRideIds db user_id := by
      intro rd hrd hdrv
      unfold victimRideIds
      exact List.mem_map_of_mem _ (List.mem_filter.mpr ⟨hrd, by simp [hdrv]⟩)
    refine ⟨?_, ?_, ?_, ?_, ?_, ?_, ?_, ?_⟩
    · intro rd hrd
      have := mem_of_mem_deleteManyBy _ _ _ hrd
      simpa using this.2
    · intro rr hrr
      have := mem_of_mem_deleteManyBy _ _ _ hrr
      simpa using this.2
    · intro rr hrr rd hrd hdrv
      have hmem := (mem_of_mem_deleteManyBy _ _ _ hrr).1
      rcases (hridesub rr hmem).2 with hnc | hemp
      · intro hre
        have : (victimRideIds db user_id).contains rr.ride_id = true := by
          rw [hre]
          exact contains_eq_true_of_mem (hvictim rd hrd hdrv)
        rw [this] at hnc
        cases hnc
      · have := hvictim rd hrd hdrv
        rw [hemp] at this
        cases this
    · intro t ht
      have := mem_of_mem_deleteManyBy _ _ _ ht
      constructor
      · simpa using fun hc => by simp [hc] at this
      · have h2 := this.2
        intro hc
        simp [hc] at h2
    · intro m hm
      have := mem_of_mem_deleteManyBy _ _ _ hm
      simpa using this.2
    · intro m hm rd hrd hdrv
      have hm1 := (hchatsub2 m (mem_of_mem_deleteManyBy _ _ _ hm).1).1
      rcases (hchatsub m hm1).2 with hnc | hemp
      · intro hre
        have : (victimRideIds db user_id).contains m.ride_id = true := by
          rw [hre]
          exact contains_eq_true_of_mem (hvictim rd hrd hdrv)
        rw [this] at hnc
        cases hnc
      · have := hvictim rd hrd hdrv
        rw [hemp] at this
        cases this
    · intro m hm rr hrr hrider hmrr
      have hm2 := mem_of_mem_deleteManyBy _ _ _ hm
      have hm3 := hchatsub2 m hm2.1
      have hm4 := hchatsub m hm3.1
      have hmdb : m ∈ db.chatMessages := hm4.1
      by_cases hin : (victimRideIds db user_id).contains rr.ride_id = true
      · -- the ride of this request belonged to the victim, so the message
        -- was deleted by ride id
        have hmr : m.ride_id = rr.ride_id := hcc m hmdb rr hrr hmrr
        rcases hm4.2 with hnc | hemp
        · rw [hmr, hin] at hnc
          cases hnc
        · rw [hemp] at hin
          cases hin
      · -- the request survived the ride-cascade, so its id was collected
        -- and the message was deleted by request id
        have hrr' : rr ∈ reqsAfterVictimRideDelete db user_id := by
          unfold reqsAfterVictimRideDelete
          split
          · exact hrr
          · exact List.mem_filter.mpr ⟨hrr, by simpa using hin⟩
        have hrin : rr.id ∈ victimRequestIds db user_id := by
          unfold victimRequestIds
          exact List.mem_map_of_mem _ (List.mem_filter.mpr ⟨hrr', by simp [hrider]⟩)
        rcases hm3.2 with hnc | hemp
        · rw [hmrr] at hnc
          rw [contains_eq_true_of_mem hrin] at hnc
          cases hnc
        · rw [hemp] at hrin
          cases hrin
    · intro us hus
      have hus' : us ∈ db.users.eraseP (fun z => z.id == user_id) := hus
      exact idOf_ne_of_mem_eraseP (fun x => x.id) user_id db.users hndu us hus' 
  · intro dbx rid msg ux nx nidx dbx' hnd hcc0 hs
    unfold send_chat_message at hs
    split at hs; · simp at hs
    split at hs; · simp at hs
    rename_i rr0 hfind0
    split at hs; · simp at hs
    split at hs; · simp at hs
    split at hs; · simp at hs
    cases hs
    intro m hm rr hrr hmrr
    rcases List.mem_append.mp hm with hm | hm
    · exact hcc0 m hm rr hrr hmrr
    · have hmeq : m =
          { id := nidx, ride_request_id := rid, ride_id := rr0.ride_id,
            sender_id := ux.id, message := msg, created_at := nx } := by
        simpa using hm
      subst hmeq
      have : rr = rr0 := eq_find?_of_nodup_ids (fun x => x.id) dbx.rideRequests hnd rid
        rr0 rr hfind0 hrr (by simpa [eq_comm] using hmrr)
      rw [this]
def c5admin : User :=
  { id := 30, email := "a@rvce.edu.in", password := "h", name := "A",
    role := "rider", is_admin := true }

def c5db : DB :=
  { users := [{ id := 20, email := "r@rvce.edu.in", password := "h", name := "R",
                role := "rider" },
              { id := 30, email := "a@rvce.edu.in", password := "h", name := "A",
                role := "rider", is_admin := true }],
    rides := [{ id := 1, driver_id := 20, source := "x", destination := "y",
                date := "2024-01-01", time := "10:00", available_seats := 2,
                estimated_cost := 10, status := "active" }],
    rideRequests := [{ id := 2, ride_id := 1, rider_id := 20, status := "accepted" }],
    chatMessages := [{ id := 3, ride_request_id := 2, ride_id := 1, sender_id := 20,
                       message := "hi" }],
    ratings := [{ id := 4, ride_request_id := 2, ride_id := 1, rater_id := 20,
                  rater_role := "rider", rated_user_id := 20, rating := 5 }],
    sosEvents := [], reports := [], auditLogs := [] }

def c5dbAfter : DB := ((admin_delete_user c5db 20 c5admin "t5").toOption).getD c5db

/-- C5 witness: deleting user 20 from the demo store leaves no trace. -/
theorem C5_witness :
    (∀ rd ∈ c5dbAfter.rides, rd.driver_id ≠ 20) ∧
    (∀ rr ∈ c5dbAfter.rideRequests, rr.rider_id ≠ 20) ∧
    (∀ rr ∈ c5dbAfter.rideRequests, ∀ rd ∈ c5db.rides, rd.driver_id = 20 →
       rr.ride_id ≠ rd.id) ∧
    (∀ t ∈ c5dbAfter.ratings, t.rater_id ≠ 20 ∧ t.rated_user_id ≠ 20) ∧
    (∀ m ∈ c5dbAfter.chatMessages, m.sender_id ≠ 20) ∧
    (∀ m ∈ c5dbAfter.chatMessages, ∀ rd ∈ c5db.rides, rd.driver_id = 20 →
       m.ride_id ≠ rd.id) ∧
    (∀ m ∈ c5dbAfter.chatMessages, ∀ rr ∈ c5db.rideRequests, rr.rider_id = 20 →
       m.ride_request_id ≠ rr.id) ∧
    (∀ us ∈ c5dbAfter.users, us.id ≠ 20) :=
  (C5_delete_cascade_theorem c5db 20 c5admin "t5" c5dbAfter (by decide)
    (by unfold ChatConsistent; decide) rfl).1

/-! ### C6: chat messages only for accepted or ongoing requests -/

/-- C6: a chat message is inserted only when the sender is the rider or the
driver and the request is `accepted` or `ongoing`; wrong status or wrong
caller gets HTTP 403 and nothing is inserted. -/
theorem C6_chat_guard_theorem
    (db : DB) (request_id : Nat) (message : String) (u : User)
    (nowIso : String) (newId : Nat) :
    (∀ db', send_chat_message db request_id message u nowIso newId = .ok db' →
      ∃ rr rd, db.rideRequests.find? (fun x => x.id == request_id) = some rr ∧
        db.rides.find? (fun x => x.id == rr.ride_id) = some rd ∧
        (rr.rider_id = u.id ∨ rd.driver_id = u.id) ∧
        (rr.status = "accepted" ∨ rr.status = "ongoing") ∧
        ∃ newMsg, db'.chatMessages = db.chatMessages ++ [newMsg] ∧
          newMsg.sender_id = u.id ∧ newMsg.ride_request_id = request_id) ∧
    (∀ rr rd, 1 ≤ message.length → message.length ≤ 1000 →
      db.rideRequests.find? (fun x => x.id == request_id) = some rr →
      db.rides.find? (fun x => x.id == rr.ride_id) = some rd →
      (rr.rider_id = u.id ∨ rd.driver_id = u.id) →
      ¬(rr.status = "accepted" ∨ rr.status = "ongoing") →
      send_chat_message db request_id message u nowIso newId = .error 403) ∧
    (∀ rr rd, 1 ≤ message.length → message.length ≤ 1000 →
      db.rideRequests.find? (fun x => x.id == request_id) = some rr →
      db.rides.find? (fun x => x.id == rr.ride_id) = some rd →
      ¬(rr.rider_id = u.id ∨ rd.driver_id = u.id) →
      send_chat_message db request_id message u nowIso newId = .error 403) := by
  refine ⟨?_, ?_, ?_⟩
  · intro db' h
    unfold send_chat_message at h
    split at h; · simp at h
    split at h; · simp at h
    rename_i rr hfindreq
    split at h; · simp at h
    rename_i rd hfindride
    split at h; · simp at h
    rename_i hpart
    split at h; · simp at h
    rename_i hstat
    cases h
    rw [Decidable.not_not] at hpart hstat
    exact ⟨rr, rd, hfindreq, hfindride, hpart, hstat, _, rfl, rfl, rfl⟩
  · intro rr rd hlen1 hlen2 hfindreq hfindride hpart hstat
    unfold send_chat_message
    rw [if_neg (by omega)]
    simp only [hfindreq, hfindride]
    rw [if_neg (not_not_intro hpart)]
    rw [if_pos hstat]
  · intro rr rd hlen1 hlen2 hfindreq hfindride hpart
    unfold send_chat_message
    rw [if_neg (by omega)]
    simp only [hfindreq, hfindride]
    rw [if_pos hpart]

def c6db : DB :=
  { users := [],
    rides := [{ id := 1, driver_id := 10, source := "x", destination := "y",
                date := "2024-01-01", time := "10:00", available_seats := 2,
                estimated_cost := 10, status := "active" }],
    rideRequests := [{ id := 2, ride_id := 1, rider_id := 20, status := "accepted" }],
    chatMessages := [], ratings := [], sosEvents := [], reports := [], auditLogs := [] }

def c6rider : User :=
  { id := 20, email := "r@rvce.edu.in", password := "h", name := "R",
    role := "rider", verification_status := "verified" }

def c6dbAfter : DB := ((send_chat_message c6db 2 "hi" c6rider "t6" 9).toOption).getD c6db

/-- C6 witness: the rider messages their accepted request. -/
theorem C6_witness :
    ∃ rr rd, c6db.rideRequests.find? (fun x => x.id == 2) = some rr ∧
      c6db.rides.find? (fun x => x.id == rr.ride_id) = some rd ∧
      (rr.rider_id = c6rider.id ∨ rd.driver_id = c6rider.id) ∧
      (rr.status = "accepted" ∨ rr.status = "ongoing") ∧
      ∃ newMsg, c6dbAfter.chatMessages = c6db.chatMessages ++ [newMsg] ∧
        newMsg.sender_id = c6rider.id ∧ newMsg.ride_request_id = 2 :=
  (C6_chat_guard_theorem c6db 2 "hi" c6rider "t6" 9).1 c6dbAfter rfl
/-! ### C7: signup email domain and uniqueness -/

theorem char_ofNat_toNat_small : ∀ m : Nat, m < 123 → (Char.ofNat m).toNat = m := by
  decide

theorem char_toLower_idem (c : Char) : c.toLower.toLower = c.toLower := by
  show Char.toLower (Char.toLower c) = Char.toLower c
  unfold Char.toLower
  by_cases h : c.toNat ≥ 65 ∧ c.toNat ≤ 90
  · rw [if_pos h]
    have ht : (Char.ofNat (c.toNat + 32)).toNat = c.toNat + 32 :=
      char_ofNat_toNat_small _ (by omega)
    rw [if_neg (by rw [ht]; omega)]
  · rw [if_neg h, if_neg h]

theorem strLower_idem (s : String) : strLower (strLower s) = strLower s := by
  unfold strLower
  apply congrArg String.mk
  show (s.data.map Char.toLower).map Char.toLower = s.data.map Char.toLower
  rw [List.map_map]
  exact List.map_congr_left (fun c _ => char_toLower_idem c)

/-- The store-side invariant of the users collection: emails are stored
lowercased, carry the campus domain, and are pairwise distinct even up to
case. -/
def UsersWellFormed (l : List User) : Prop :=
  (∀ x ∈ l, x.email = strLower x.email ∧
    strEndsWith x.email ALLOWED_EMAIL_DOMAIN = true) ∧
  l.Pairwise (fun a b => strLower a.email ≠ strLower b.email)

/-- C7: signup rejects a non-campus email with HTTP 400, rejects a duplicate
(lowercased) email with HTTP 400, both leaving the store unchanged; on
success it appends exactly one user whose stored email is the lowercased,
domain-checked input and is new to the store, so the users invariant
(domain-restricted, unique up to case) is preserved. -/
theorem C7_signup_theorem (db : DB) (email password name role : String)
    (gph : String → String) (nowIso : String) (newId : Nat) :
    ((role = "rider" ∨ role = "driver") → validate_email_domain email = false →
      signup db email password name role gph nowIso newId = .error 400) ∧
    ((role = "rider" ∨ role = "driver") → validate_email_domain email = true →
      ∀ ex, db.users.find? (fun x => x.email == strLower email) = some ex →
      signup db email password name role gph nowIso newId = .error 400) ∧
    (∀ db', signup db email password name role gph nowIso newId = .ok db' →
      validate_email_domain email = true ∧
      (∀ x ∈ db.users, x.email ≠ strLower email) ∧
      ∃ newUser, db'.users = db.users ++ [newUser] ∧
        newUser.email = strLower email ∧
        (UsersWellFormed db.users → UsersWellFormed db'.users)) := by
  refine ⟨?_, ?_, ?_⟩
  · intro hrole hbad
    unfold signup
    rw [if_neg (by rcases hrole with h | h <;> simp [h])]
    rw [if_pos (by simp [hbad])]
  · intro hrole hok ex hex
    unfold signup
    rw [if_neg (by rcases hrole with h | h <;> simp [h])]
    rw [if_neg (by simp [hok])]
    simp only [hex]
  · intro db' h
    unfold signup at h
    split at h; · simp at h
    split at h; · simp at h
    rename_i hval
    split at h; · simp at h
    rename_i hdup
    cases h
    rw [Decidable.not_not] at hval
    have hnodup : ∀ x ∈ db.users, x.email ≠ strLower email := by
      intro x hx
      rw [List.find?_eq_none] at hdup
      simpa using hdup x hx
    refine ⟨hval, hnodup, _, rfl, rfl, ?_⟩
    rintro ⟨hfields, hpair⟩
    constructor
    · intro x hx
      rcases List.mem_append.mp hx with hx | hx
      · exact hfields x hx
      · have hxe : x =
            { id := newId, email := strLower email, password := gph password,
              name := name, role := role, is_admin := false,
              verification_status := "unverified", created_at := nowIso } := by
          simpa using hx
        subst hxe
        exact ⟨(strLower_idem email).symm, by
          simpa [validate_email_domain] using hval⟩
    · rw [List.pairwise_append]
      refine ⟨hpair, by simp, ?_⟩
      intro a ha b hb
      have hb' : b =
          { id := newId, email := strLower email, password := gph password,
            name := name, role := role, is_admin := false,
            verification_status := "unverified", created_at := nowIso } := by
        simpa using hb
      subst hb'
      show strLower a.email ≠ strLower (strLower email)
      rw [strLower_idem]
      rw [← (hfields a ha).1]
      exact hnodup a ha

def c7db : DB :=
  { users := [{ id := 1, email := "old@rvce.edu.in", password := "h", name := "O",
                role := "rider" }],
    rides := [], rideRequests := [], chatMessages := [], ratings := [],
    sosEvents := [], reports := [], auditLogs := [] }

def c7dbAfter : DB :=
  ((signup c7db "New@RVCE.edu.in" "pw" "N" "rider" (fun _ => "hh") "t7" 8).toOption).getD c7db

/-- C7 witness: a mixed-case campus email signs up on the demo store. -/
theorem C7_witness :
    validate_email_domain "New@RVCE.edu.in" = true ∧
    (∀ x ∈ c7db.users, x.email ≠ strLower "New@RVCE.edu.in") ∧
    ∃ newUser, c7dbAfter.users = c7db.users ++ [newUser] ∧
      newUser.email = strLower "New@RVCE.edu.in" ∧
      (UsersWellFormed c7db.users → UsersWellFormed c7dbAfter.users) :=
  (C7_signup_theorem c7db "New@RVCE.edu.in" "pw" "N" "rider" (fun _ => "hh")
    "t7" 8).2.2 c7dbAfter rfl
/-! ### A stable structural sort

Python `list.sort` is stable; a stable sort for a total preorder is unique,
so stable insertion sort models it exactly (and, unlike well-founded
definitions, evaluates inside `decide`). -/

def insertLE {α} (le : α → α → Bool) (x : α) : List α → List α
  | [] => [x]
  | y :: ys => if le x y then x :: y :: ys else y :: insertLE le x ys

def sortLE {α} (le : α → α → Bool) : List α → List α
  | [] => []
  | x :: xs => insertLE le x (sortLE le xs)

theorem perm_insertLE {α} (le : α → α → Bool) (x : α) :
    ∀ l : List α, (insertLE le x l).Perm (x :: l) := by
  intro l
  induction l with
  | nil => exact List.Perm.refl _
  | cons y ys ih =>
    by_cases hxy : le x y
    · simp [insertLE, hxy]
    · rw [Bool.not_eq_true] at hxy
      simp only [insertLE, hxy, Bool.false_eq_true, if_false]
      exact (ih.cons y).trans (List.Perm.swap x y ys)

theorem perm_sortLE {α} (le : α → α → Bool) :
    ∀ l : List α, (sortLE le l).Perm l := by
  intro l
  induction l with
  | nil => exact List.Perm.refl _
  | cons x xs ih =>
    exact (perm_insertLE le x (sortLE le xs)).trans (ih.cons x)

theorem mem_insertLE {α} (le : α → α → Bool) (x : α) (l : List α) (z : α)
    (h : z ∈ insertLE le x l) : z = x ∨ z ∈ l := by
  have := (perm_insertLE le x l).mem_iff.mp h
  simpa using this

theorem sorted_insertLE {α} (le : α → α → Bool)
    (trans : ∀ a b c, le a b → le b c → le a c)
    (total : ∀ a b, (le a b || le b a) = true) (x : α) :
    ∀ l : List α, l.Pairwise (fun a b => le a b = true) →
      (insertLE le x l).Pairwise (fun a b => le a b = true) := by
  intro l
  induction l with
  | nil => intro _; simp [insertLE]
  | cons y ys ih =>
    intro hp
    rw [List.pairwise_cons] at hp
    by_cases hxy : le x y
    · simp only [insertLE, hxy, if_true]
      rw [List.pairwise_cons]
      refine ⟨?_, List.pairwise_cons.mpr hp⟩
      intro z hz
      rcases List.mem_cons.mp hz with rfl | hz'
      · exact hxy
      · exact trans x y z hxy (hp.1 z hz')
    · have hyx : le y x = true := by
        have := total x y
        rw [Bool.not_eq_true] at hxy
        simpa [hxy] using this
      rw [Bool.not_eq_true] at hxy
      simp only [insertLE, hxy, Bool.false_eq_true, if_false]
      rw [List.pairwise_cons]
      refine ⟨?_, ih hp.2⟩
      intro z hz
      rcases mem_insertLE le x ys z hz with rfl | hz'
      · exact hyx
      · exact hp.1 z hz'

theorem sorted_sortLE {α} (le : α → α → Bool)
    (trans : ∀ a b c, le a b → le b c → le a c)
    (total : ∀ a b, (le a b || le b a) = true) :
    ∀ l : List α, (sortLE le l).Pairwise (fun a b => le a b = true) := by
  intro l
  induction l with
  | nil => simp [sortLE]
  | cons x xs ih => exact sorted_insertLE le trans total x _ ih

/-! ### C8: ride listing - partition and ordering (`rides.py` `get_rides`)

The response fields that matter to the listing order are collected in
`SerializedRide`; the remaining `serialize_ride` fields (names, trust data,
cost splits) never influence the filtering or the ordering. -/

structure SerializedRide where
  id : Nat
  seats_available : Int
  driver_branch : Option String
  driver_academic_year : Option String
  route_score : Nat
  time_diff_minutes : Option Nat
  is_recommended : Bool
  deriving Repr, DecidableEq

/-- The order-relevant part of `serialize_ride` (`utils.py`): seats taken
count `accepted`/`ongoing` requests (plus `completed` ones for completed
rides), and the driver document supplies branch and academic year. -/
def serialize_ride_lite (db : DB) (ride : Ride) : SerializedRide :=
  { id := ride.id,
    seats_available := (ride.available_seats : Int) -
      (if ride.status == "completed" then
        (db.rideRequests.countP (fun x => x.ride_id == ride.id &&
          (x.status == "accepted" || x.status == "ongoing" ||
            x.status == "completed")) : Int)
      else (countAcceptedOngoing db ride.id : Int)),
    driver_branch := (db.users.find? (fun x => x.id == ride.driver_id)).bind (·.branch),
    driver_academic_year :=
      (db.users.find? (fun x => x.id == ride.driver_id)).bind (·.academic_year),
    route_score := 0, time_diff_minutes := none, is_recommended := false }

/-- `calculate_route_score` from `get_rides`: up to 50 per endpoint for a
mutual-substring hit, 25 for a word overlap; falsy keywords contribute 0. -/
def calculate_route_score (ride : Ride) (src_keyword dest_keyword : Option String) : Nat :=
  (match src_keyword with
   | some src =>
     if src = "" then 0
     else if strContains (strLower ride.source) (strLower src) ||
         strContains (strLower src) (strLower ride.source) then 50
     else if (strWords (strLower src)).any
         (fun w => strContains (strLower ride.source) w) then 25
     else 0
   | none => 0) +
  (match dest_keyword with
   | some dest =>
     if dest = "" then 0
     else if strContains (strLower ride.destination) (strLower dest) ||
         strContains (strLower dest) (strLower ride.destination) then 50
     else if (strWords (strLower dest)).any
         (fun w => strContains (strLower ride.destination) w) then 25
     else 0
   | none => 0)

/-- `calculate_time_diff_minutes` from `get_rides`; any parse failure is the
sentinel 9999. -/
def calculate_time_diff_minutes (ride_time preferred : String) : Nat :=
  match splitOnChar (Char.ofNat 58) ride_time.data, splitOnChar (Char.ofNat 58) preferred.data with
  | rp0 :: rp1 :: _, pp0 :: pp1 :: _ =>
    match intFromChars? rp0, intFromChars? rp1, intFromChars? pp0, intFromChars? pp1 with
    | some rh, some rm, some ph, some pm => ((rh * 60 + rm) - (ph * 60 + pm)).natAbs
    | _, _, _, _ => 9999
  | _, _ => 9999

/-- Query parameters of `GET /api/rides`. -/
structure RideQuery where
  destination : Option String := none
  source : Option String := none
  date : Option String := none
  time_window : Option Int := none
  preferred_time : Option String := none
  pickup_point : Option String := none
  event_tag : Option String := none
  branch : Option String := none
  academic_year : Option String := none
  deriving Repr, DecidableEq

/-- Python truthiness of an optional string parameter. -/
def optStrTruthy : Option String → Bool
  | none => false
  | some s => !s.data.isEmpty

/-- Python truthiness of an optional integer parameter. -/
def optIntTruthy : Option Int → Bool
  | none => false
  | some n => n != 0

/-- Lexicographic strict order on raw characters (the string order the
`created_at` sort key uses; Lean string order instances do not evaluate in
the kernel). -/
def charListLt : List Char → List Char → Bool
  | [], [] => false
  | [], _ :: _ => true
  | _ :: _, [] => false
  | a :: as, b :: bs =>
    if a.toNat < b.toNat then true
    else if a.toNat = b.toNat then charListLt as bs
    else false

/-- The Mongo query of `get_rides` (`status: "active"` plus the provided
date, pickup point and event tag equality filters) followed by the
`created_at` descending sort. -/
def ridesMatchingQuery (db : DB) (q : RideQuery) : List Ride :=
  (db.rides.filter (fun r =>
    r.status == "active" &&
    (!optStrTruthy q.date || r.date == q.date.getD "") &&
    (!optStrTruthy q.pickup_point || r.pickup_point == some (q.pickup_point.getD "")) &&
    (!optStrTruthy q.event_tag || r.event_tag == some (q.event_tag.getD ""))))
    |> sortLE (fun a b => !charListLt a.created_at.data b.created_at.data)

/-- The per-ride body of the `get_rides` loop: `none` is a `continue`. -/
def processRide (db : DB) (q : RideQuery) (ride : Ride) : Option SerializedRide :=
  let s0 := serialize_ride_lite db ride
  if s0.seats_available ≤ 0 then none
  else if optStrTruthy q.branch && !(s0.driver_branch == q.branch) then none
  else if optStrTruthy q.academic_year &&
      !(s0.driver_academic_year == q.academic_year) then none
  else
    let route_score :=
      if optStrTruthy q.source || optStrTruthy q.destination then
        calculate_route_score ride q.source q.destination
      else 0
    let recFromRoute := (optStrTruthy q.source || optStrTruthy q.destination) &&
      decide (50 ≤ route_score)
    if optStrTruthy q.preferred_time && optIntTruthy q.time_window then
      let td := calculate_time_diff_minutes ride.time (q.preferred_time.getD "")
      if (td : Int) ≤ q.time_window.getD 0 then
        some { s0 with
               route_score := route_score, time_diff_minutes := some td,
               is_recommended := true }
      else none
    else if optStrTruthy q.preferred_time then
      some { s0 with
             route_score := route_score,
             time_diff_minutes :=
               some (calculate_time_diff_minutes ride.time (q.preferred_time.getD "")),
             is_recommended := recFromRoute }
    else
      some { s0 with
             route_score := route_score, time_diff_minutes := none,
             is_recommended := recFromRoute }

/-- The loop of `get_rides`: recommended rides and the rest, each in
traversal order. -/
def splitRides (db : DB) (q : RideQuery) : List Ride → List SerializedRide × List SerializedRide
  | [] => ([], [])
  | ride :: rest =>
    let p := splitRides db q rest
    match processRide db q ride with
    | none => p
    | some s => if s.is_recommended then (s :: p.1, p.2) else (p.1, s :: p.2)

/-- The Python sort key `(-route_score, time_diff_minutes or 9999)` as a
total boolean preorder. -/
def rideLE (a b : SerializedRide) : Bool :=
  decide (b.route_score < a.route_score) ||
    (decide (a.route_score = b.route_score) &&
      decide (a.time_diff_minutes.getD 9999 ≤ b.time_diff_minutes.getD 9999))

/-- `GET /api/rides`: only the recommended group is sorted; the rest keeps
the query (creation-time) order. -/
def get_rides (db : DB) (q : RideQuery) : List SerializedRide :=
  sortLE rideLE (splitRides db q (ridesMatchingQuery db q)).1
    ++ (splitRides db q (ridesMatchingQuery db q)).2

/-- Modelled from the claim text: the listing with BOTH groups sorted by
score then time difference - what the claim asserts `get_rides` returns. -/
def get_rides_claim (db : DB) (q : RideQuery) : List SerializedRide :=
  sortLE rideLE (splitRides db q (ridesMatchingQuery db q)).1
    ++ sortLE rideLE (splitRides db q (ridesMatchingQuery db q)).2

theorem splitRides_eq (db : DB) (q : RideQuery) :
    ∀ l : List Ride, splitRides db q l
      = ((l.filterMap (processRide db q)).filter (fun s => s.is_recommended),
         (l.filterMap (processRide db q)).filter (fun s => !s.is_recommended)) := by
  intro l
  induction l with
  | nil => rfl
  | cons ride rest ih =>
    simp only [splitRides, ih, List.filterMap_cons]
    cases hp : processRide db q ride with
    | none => rfl
    | some s =>
      by_cases hrec : s.is_recommended
      · simp [hrec, List.filter_cons]
      · simp only [Bool.not_eq_true] at hrec
        simp [hrec, List.filter_cons]

theorem rideLE_total (a b : SerializedRide) : (rideLE a b || rideLE b a) = true := by
  unfold rideLE
  simp only [Bool.or_eq_true, Bool.and_eq_true, decide_eq_true_eq]
  omega

theorem rideLE_trans (a b c : SerializedRide) :
    rideLE a b → rideLE b c → rideLE a c := by
  unfold rideLE
  simp only [Bool.or_eq_true, Bool.and_eq_true, decide_eq_true_eq]
  omega

/-- C8 (amended): the listing is the recommended group (route score at
least 50, or time difference within the window), sorted by score descending
then time difference ascending, followed by the remaining matching rides in
query (creation-time) order - the tail is NOT re-sorted. -/
theorem C8_partition_theorem (db : DB) (q : RideQuery) :
    get_rides db q
      = sortLE rideLE (((ridesMatchingQuery db q).filterMap (processRide db q)).filter
            (fun s => s.is_recommended))
        ++ ((ridesMatchingQuery db q).filterMap (processRide db q)).filter
            (fun s => !s.is_recommended) ∧
    List.Pairwise (fun a b => rideLE a b = true)
      (sortLE rideLE (((ridesMatchingQuery db q).filterMap (processRide db q)).filter
          (fun s => s.is_recommended))) ∧
    (sortLE rideLE (((ridesMatchingQuery db q).filterMap (processRide db q)).filter
        (fun s => s.is_recommended))).Perm
      (((ridesMatchingQuery db q).filterMap (processRide db q)).filter
        (fun s => s.is_recommended)) ∧
    (∀ s ∈ ((ridesMatchingQuery db q).filterMap (processRide db q)).filter
        (fun s => s.is_recommended), s.is_recommended = true) ∧
    (∀ s ∈ ((ridesMatchingQuery db q).filterMap (processRide db q)).filter
        (fun s => !s.is_recommended), s.is_recommended = false) := by
  have hsplit := splitRides_eq db q (ridesMatchingQuery db q)
  refine ⟨?_, ?_, perm_sortLE rideLE _, ?_, ?_⟩
  · unfold get_rides
    rw [hsplit]
  · exact sorted_sortLE rideLE rideLE_trans rideLE_total _
  · intro s hs
    exact (List.mem_filter.mp hs).2
  · intro s hs
    simpa using (List.mem_filter.mp hs).2

def c8q : RideQuery := { source := some "aa bb" }

def c8db : DB :=
  { users := [],
    rides := [
      { id := 1, driver_id := 10, source := "qq", destination := "qq",
        date := "2024-01-01", time := "10:00", available_seats := 1,
        estimated_cost := 10, status := "active", created_at := "2" },
      { id := 2, driver_id := 10, source := "aa zz", destination := "qq",
        date := "2024-01-01", time := "10:00", available_seats := 1,
        estimated_cost := 10, status := "active", created_at := "1" }],
    rideRequests := [], chatMessages := [], ratings := [], sosEvents := [],
    reports := [], auditLogs := [] }

/-- C8 counterexample: two active non-recommended rides (scores 0 and 25)
come back in creation order, not in score order, so the claimed
both-groups-sorted listing differs from what the code returns. -/
theorem C8_counterexample :
    (get_rides c8db c8q).map (fun s => (s.id, s.route_score)) = [(1, 0), (2, 25)] ∧
    (get_rides_claim c8db c8q).map (fun s => (s.id, s.route_score)) = [(2, 25), (1, 0)] ∧
    get_rides c8db c8q ≠ get_rides_claim c8db c8q := by
  refine ⟨by decide, by decide, by decide⟩
/-! ### C9: reached-safely completion and ride closeout -/

/-- C9: a successful reached-safely call was made by the rider of an
`ongoing` request; it completes the request, and it marks the parent ride
`completed` exactly when no accepted-or-ongoing request of that ride remains
afterwards, leaving the rides collection untouched otherwise. -/
theorem C9_reached_safely_theorem (db : DB) (request_id : Nat) (u : User)
    (nowIso : String) (db' : DB)
    (h : mark_reached_safely db request_id u nowIso = .ok db') :
    ∃ rr, db.rideRequests.find? (fun x => x.id == request_id) = some rr ∧
      rr.status = "ongoing" ∧ rr.rider_id = u.id ∧
      reqStatus db' request_id = some "completed" ∧
      db'.rideRequests = mrsUpdatedRequests db request_id nowIso ∧
      (countAcceptedOngoing db' rr.ride_id = 0 →
        db'.rides = updateFirstBy (fun x => x.id == rr.ride_id)
          (fun x => { x with status := "completed" }) db.rides) ∧
      (countAcceptedOngoing db' rr.ride_id ≠ 0 → db'.rides = db.rides) := by
  unfold mark_reached_safely at h
  split at h; · simp at h
  rename_i rr hfindreq
  split at h; · simp at h
  rename_i hrider
  split at h; · simp at h
  rename_i hstat
  rw [Decidable.not_not] at hrider hstat
  have hreq' : db'.rideRequests = mrsUpdatedRequests db request_id nowIso := by
    split at h <;> (cases h; rfl)
  have hstatus' : reqStatus db' request_id = some "completed" := by
    have := find?_updateFirstBy_self (fun x => x.id == request_id)
      (fun x => { x with
                  status := "completed", reached_safely_at := some nowIso,
                  completed_at := some nowIso })
      (fun _ => rfl) db.rideRequests
    simp [reqStatus, hreq', mrsUpdatedRequests, this, hfindreq]
  refine ⟨rr, hfindreq, hstat, hrider, hstatus', hreq', ?_, ?_⟩
  · intro hzero
    split at h
    · cases h; rfl
    · rename_i hcond
      exfalso
      exact hcond (by
        simpa [countAcceptedOngoing, hreq'] using hzero)
  · intro hnonzero
    split at h
    · rename_i hcond
      exfalso
      apply hnonzero
      cases h
      simpa [countAcceptedOngoing] using hcond
    · cases h; rfl

def c9db : DB :=
  { users := [],
    rides := [{ id := 1, driver_id := 10, source := "x", destination := "y",
                date := "2024-01-01", time := "10:00", available_seats := 2,
                estimated_cost := 10, status := "active" }],
    rideRequests := [{ id := 2, ride_id := 1, rider_id := 20, status := "ongoing",
                       ride_pin := some "1234" }],
    chatMessages := [], ratings := [], sosEvents := [], reports := [], auditLogs := [] }

def c9rider : User :=
  { id := 20, email := "r@rvce.edu.in", password := "h", name := "R",
    role := "rider", verification_status := "verified" }

def c9dbAfter : DB := ((mark_reached_safely c9db 2 c9rider "t9").toOption).getD c9db

/-- C9 witness: the sole ongoing request completes and the ride closes. -/
theorem C9_witness :
    ∃ rr, c9db.rideRequests.find? (fun x => x.id == 2) = some rr ∧
      rr.status = "ongoing" ∧ rr.rider_id = c9rider.id ∧
      reqStatus c9dbAfter 2 = some "completed" ∧
      c9dbAfter.rideRequests = mrsUpdatedRequests c9db 2 "t9" ∧
      (countAcceptedOngoing c9dbAfter rr.ride_id = 0 →
        c9dbAfter.rides = updateFirstBy (fun x => x.id == rr.ride_id)
          (fun x => { x with status := "completed" }) c9db.rides) ∧
      (countAcceptedOngoing c9dbAfter rr.ride_id ≠ 0 → c9dbAfter.rides = c9db.rides) :=
  C9_reached_safely_theorem c9db 2 c9rider "t9" c9dbAfter rfl

/-! ### C10: SOS blocking statuses and repeat alerts after review -/

/-- Status of the SOS event a `find_one` on the given id returns. -/
def sosStatus (db : DB) (sid : Nat) : Option String :=
  (db.sosEvents.find? fun s => s.id == sid).map (·.status)

def c10db : DB :=
  { users := [],
    rides := [{ id := 1, driver_id := 10, source := "x", destination := "y",
                date := "2024-01-01", time := "10:00", available_seats := 2,
                estimated_cost := 10, status := "active" }],
    rideRequests := [{ id := 2, ride_id := 1, rider_id := 20, status := "ongoing",
                       ride_pin := some "1234" }],
    chatMessages := [], ratings := [], sosEvents := [], reports := [], auditLogs := [] }

def c10rider : User :=
  { id := 20, email := "r@rvce.edu.in", password := "h", name := "R",
    role := "rider", verification_status := "verified" }

def c10admin : User :=
  { id := 30, email := "a@rvce.edu.in", password := "h", name := "A",
    role := "rider", is_admin := true }

def c10db1 : DB :=
  ((trigger_sos c10db 2 none none none c10rider "s1" 100).toOption).getD c10db

def c10db2 : DB :=
  ((admin_update_sos c10db1 100 "review" none c10admin "s2").toOption).getD c10db1

def c10db3 : DB :=
  ((trigger_sos c10db2 2 none none none c10rider "s3" 101).toOption).getD c10db2

/-- C10: a new SOS for a request is rejected (HTTP 400, nothing inserted)
exactly when an SOS with status `active` or `reviewed` exists for it; admin
review writes status `under_review` (never `reviewed`); hence after a
trigger and an admin review, a second trigger for the same request succeeds
and two unresolved SOS events coexist. -/
theorem C10_sos_theorem :
    (∀ (db : DB) (rid : Nat) (la lo : Option Int) (msg : Option String) (u : User)
        (now : String) (nid : Nat) (rr : RideRequest) (rd : Ride) (s0 : SOSEvent),
      db.rideRequests.find? (fun x => x.id == rid) = some rr →
      db.rides.find? (fun x => x.id == rr.ride_id) = some rd →
      (rr.rider_id = u.id ∨ rd.driver_id = u.id) → rr.status = "ongoing" →
      db.sosEvents.find? (fun s => s.ride_request_id == rid &&
        (s.status == "active" || s.status == "reviewed")) = some s0 →
      trigger_sos db rid la lo msg u now nid = .error 400) ∧
    (∀ (db : DB) (rid : Nat) (la lo : Option Int) (msg : Option String) (u : User)
        (now : String) (nid : Nat) (rr : RideRequest) (rd : Ride),
      db.rideRequests.find? (fun x => x.id == rid) = some rr →
      db.rides.find? (fun x => x.id == rr.ride_id) = some rd →
      (rr.rider_id = u.id ∨ rd.driver_id = u.id) → rr.status = "ongoing" →
      db.sosEvents.find? (fun s => s.ride_request_id == rid &&
        (s.status == "active" || s.status == "reviewed")) = none →
      ∃ db', trigger_sos db rid la lo msg u now nid = .ok db' ∧
        ∃ newSOS, db'.sosEvents = db.sosEvents ++ [newSOS] ∧
          newSOS.status = "active" ∧ newSOS.ride_request_id = rid) ∧
    (∀ (db : DB) (sid : Nat) (notes : Option String) (u : User) (now : String)
        (db' : DB) (s0 : SOSEvent),
      db.sosEvents.find? (fun s => s.id == sid) = some s0 →
      admin_update_sos db sid "review" notes u now = .ok db' →
      sosStatus db' sid = some "under_review") ∧
    (trigger_sos c10db2 2 none none none c10rider "s3" 101 = .ok c10db3 ∧
      c10db3.sosEvents.map (fun s => (s.ride_request_id, s.status))
        = [(2, "under_review"), (2, "active")] ∧
      ("under_review" : String) ≠ "resolved" ∧ ("active" : String) ≠ "resolved") := by
  refine ⟨?_, ?_, ?_, rfl, rfl, by decide, by decide⟩
  · intro db rid la lo msg u now nid rr rd s0 hfr hfd hpart hst hsos
    unfold trigger_sos
    simp only [hfr, hfd]
    rw [if_neg (not_not_intro hpart)]
    rw [if_neg (by simp [hst])]
    simp only [hsos]
  · intro db rid la lo msg u now nid rr rd hfr hfd hpart hst hsos
    refine ⟨{ db with sosEvents := db.sosEvents ++
        [{ id := nid, ride_request_id := rid, ride_id := rr.ride_id,
           triggered_by := u.id, triggered_by_role := u.role, latitude := la,
           longitude := lo, message := msg, status := "active",
           created_at := now }] }, ?_, ?_⟩
    · unfold trigger_sos
      simp only [hfr, hfd]
      rw [if_neg (not_not_intro hpart)]
      rw [if_neg (by simp [hst])]
      simp only [hsos]
    · exact ⟨_, rfl, rfl, rfl⟩
  · intro db sid notes u now db' s0 hfind h
    unfold admin_update_sos at h
    split at h; · simp at h
    split at h; · simp at h
    split at h; · simp at h
    split at h
    · cases h
      have := find?_updateFirstBy_self (fun s => s.id == sid)
        (fun s => { s with
                    status := "under_review", reviewed_at := some now,
                    reviewed_by := some u.id, admin_notes := notes })
        (fun _ => rfl) db.sosEvents
      simp [sosStatus, log_admin_action, this, hfind]
    · simp at *
/-- C10 witness: with the first SOS still `active`, a second trigger for the
same request is rejected with HTTP 400. -/
theorem C10_witness :
    trigger_sos c10db1 2 none none none c10rider "sx" 102 = .error 400 :=
  C10_sos_theorem.1 c10db1 2 none none none c10rider "sx" 102 _ _ _
    rfl rfl (Or.inl rfl) rfl rfl

end DTL
